import Mathlib

/-!
# GoAPIpretender: the request-validation engine of the HTTP mock server

A shallow embedding of `GoAPIpretender.go`.

* A Go `string` and the contents of a `[]byte` are byte sequences.  Both are
  embedded as `String`, one character standing for one byte; the program only
  compares, concatenates and measures them, and tests a literal ASCII
  beginning.  A `[]byte` that may be `nil` is an `Option String`.
* A Go `error` is `Option GoError`, `none` being the `nil` error.
* A Go `map[string]V` is an association list.  The order of the list is the
  order in which `range` visits the entries during the run at hand, so a
  statement about every list is a statement about every iteration order.
  `m[k]` reads the zero value for a missing key.  A map that may be `nil` is
  an `Option`.
* The handler writes to the outside world (the reporter, the process log, the
  response writer).  Those writes are embedded as the list of `Effect`s the
  handler performs, in program order.
* `json.Unmarshal` and `reflect.DeepEqual` belong to the Go standard library,
  not to this repository.  The functions that call them take a `JSONCodec`
  as a parameter, and the theorems hold for every codec.
-/

set_option maxRecDepth 20000

namespace GoAPIpretender

/-! ## Go values -/

/-- A Go map in the iteration order of the run at hand. -/
abbrev GoMap (β : Type) := List (String × β)

/-- The index expression `m[k]` on a `map[string]string`: the empty string
when the key is missing. -/
def GoMap.index (m : GoMap String) (k : String) : String :=
  (List.lookup k m).getD ""

/-- The assignment `m[k] = v`: the entry of `k` is replaced, or added. -/
def GoMap.set {β : Type} : GoMap β → String → β → GoMap β
  | [], k, v => [(k, v)]
  | (k0, v0) :: rest, k, v =>
    if k0 = k then (k, v) :: rest else (k0, v0) :: GoMap.set rest k v

/-- The entries a `range` loop visits: none for a `nil` map. -/
def rangeOf {β : Type} : Option (GoMap β) → List (String × β)
  | none => []
  | some m => m

/-- The contents of a byte slice: `string(b)`, empty for a `nil` slice. -/
def bytesToString : Option String → String
  | none => ""
  | some b => b

/-- Go `strings.HasPrefix`. -/
def stringsHasPrefix (s pre : String) : Bool := pre.data.isPrefixOf s.data

/-- Go `strings.Join`. -/
def stringsJoin (elems : List String) (sep : String) : String :=
  sep.intercalate elems

/-- A non-nil Go `error`; `Error()` is its message. -/
structure GoError where
  msg : String
deriving DecidableEq, Repr

/-- The method `Error()` of an `error`. -/
def GoError.Error (e : GoError) : String := e.msg

/-! ## The standard library's JSON decoding, as a parameter -/

/-- What `comparePayloads` uses of `encoding/json` and `reflect`:
`Unmarshal data` is `none` when `json.Unmarshal(data, &v)` returns an error and
the decoded `any` otherwise; `DeepEqual` is `reflect.DeepEqual` on two decoded
values. -/
structure JSONCodec where
  Value : Type
  Unmarshal : String → Option Value
  DeepEqual : Value → Value → Bool

/-! ## The data model of `GoAPIpretender.go` -/

def parameter : String := "parameter"

def header : String := "header"

/-- The reporter interface `T`.  Its methods act on the test harness; a
reporter is identified by a name. -/
structure T where
  name : String
deriving DecidableEq, Repr

structure ServerMockConfig where
  Path : String := ""
  Method : String := ""
  ContentType : String := ""
  Payload : Option String := none
  Parameters : Option (GoMap String) := none
  Headers : Option (GoMap String) := none
  ResponseStatus : Int := 0
  ResponseHeader : Option (GoMap String) := none
  ResponseBody : Option String := none
  T : Option T := none
deriving DecidableEq, Repr

/-- A running `httptest.Server`, known by its URL. -/
structure Server where
  URL : String
deriving DecidableEq, Repr

structure ServerMock where
  config : ServerMockConfig := {}
  server : Option Server := none
deriving DecidableEq, Repr

/-- The `url.URL` of a request: its path, and the result of `Query()`. -/
structure URL where
  Path : String := ""
  Query : GoMap (List String) := []
deriving DecidableEq, Repr

/-- An incoming `http.Request`.  `Body` is the outcome of `io.ReadAll(r.Body)`:
the bytes read, or the read error. -/
structure Request where
  Method : String := "GET"
  URL : URL := {}
  Header : GoMap (List String) := []
  Body : Except String String := .ok ""

/-- Go `http.Header.Get` for a key in canonical form: the first value of the
key, the empty string when there is none. -/
def headerGet (h : GoMap (List String)) (key : String) : String :=
  match List.lookup key h with
  | some (v :: _) => v
  | _ => ""

/-- What the handler does to the outside world. -/
inductive Effect where
  | errorf (t : T) (msg : String)
  | logPrintf (msg : String)
  | headerSet (key value : String)
  | writeHeader (status : Int)
  | write (body : String)
deriving DecidableEq, Repr

/-! ## The checks -/

def checkMethod (s : ServerMock) (method : String) : Option GoError :=
  if s.config.Method ≠ "" ∧ method ≠ s.config.Method then
    some ⟨"invalid method, got: '" ++ method ++ "' expected: '" ++ s.config.Method ++ "'"⟩
  else none

def checkPath (s : ServerMock) (path : String) : Option GoError :=
  if s.config.Path ≠ "" ∧ path ≠ s.config.Path then
    some ⟨"invalid path, got: '" ++ path ++ "' expected: '" ++ s.config.Path ++ "'"⟩
  else none

def errorsToStrings (errs : List GoError) : List String :=
  errs.map GoError.Error

/-- The line `checkValues` appends for a mismatching key. -/
def valueError (param key value requestParameter : String) : GoError :=
  ⟨"invalid " ++ key ++ " " ++ param ++ ": expected '" ++ value ++ "', got '"
    ++ requestParameter ++ "'"⟩

/-- One turn of the loop of `checkValues`. -/
def checkValuesStep (values : GoMap String) (param : String)
    (errs : List GoError) (kv : String × String) : List GoError :=
  let requestParameter := values.index kv.1
  if requestParameter ≠ kv.2 then
    errs ++ [valueError param kv.1 kv.2 requestParameter]
  else errs

def checkValues (_s : ServerMock) (values : GoMap String) (param : String)
    (validators : Option (GoMap String)) : Option GoError :=
  let errs := (rangeOf validators).foldl (checkValuesStep values param) []
  if errs.length > 0 then
    some ⟨stringsJoin (errorsToStrings errs) "\n"⟩
  else none

def isJSONrequest (_s : ServerMock) (r : Request) : Bool :=
  let contentType := headerGet r.Header "Content-Type"
  stringsHasPrefix contentType "application/json"

def comparePayloads (J : JSONCodec) (s : ServerMock) (r : Request)
    (payload : String) : Option GoError :=
  if ¬ isJSONrequest s r then
    if payload ≠ bytesToString s.config.Payload then
      some ⟨"Unexpected payload received, got: '" ++ payload ++ "', expected: '"
        ++ bytesToString s.config.Payload ++ "'"⟩
    else none
  else
    match J.Unmarshal (bytesToString s.config.Payload) with
    | none => some ⟨"Invalid expected JSON: '" ++ bytesToString s.config.Payload ++ "'"⟩
    | some expectedPayload =>
      match J.Unmarshal payload with
      | none => some ⟨"Invalid received JSON: '" ++ payload ++ "'"⟩
      | some actualPayload =>
        if ¬ J.DeepEqual expectedPayload actualPayload then
          some ⟨"Mismatched JSON payload, got: '" ++ payload ++ "', expected: '"
            ++ bytesToString s.config.Payload ++ "'"⟩
        else none

def checkPayload (J : JSONCodec) (s : ServerMock) (r : Request) : Option GoError :=
  match r.Body with
  | .error err => some ⟨"Failed to read request body: " ++ err⟩
  | .ok payload =>
    if s.config.Payload = none ∧ payload.length > 0 then
      some ⟨"Unexpected payload received, got: '" ++ payload ++ "', but none was expected"⟩
    else if (bytesToString s.config.Payload).length > 0 ∧ payload.length = 0 then
      some ⟨"Expected a request payload, but none was received"⟩
    else comparePayloads J s r payload

/-! ## Request introspection -/

def getHeaders (r : Request) : GoMap String :=
  r.Header.foldl (fun headers kv => GoMap.set headers kv.1 (stringsJoin kv.2 ", ")) []

def getParameters (r : Request) : GoMap String :=
  r.URL.Query.foldl (fun params kv => GoMap.set params kv.1 (stringsJoin kv.2 ", ")) []

def joinErrors (errs : List String) : String :=
  stringsJoin errs "\n"

/-! ## The handler -/

def returnResponse (s : ServerMock) : List Effect :=
  let headers :=
    match s.config.ResponseHeader with
    | some m => m.map (fun kv => Effect.headerSet kv.1 kv.2)
    | none => []
  let status := s.config.ResponseStatus
  let status := if status = 0 then 200 else status
  let statusWrite :=
    if status ≥ 100 ∧ status ≤ 511 then [Effect.writeHeader status] else []
  let bodyWrite :=
    match s.config.ResponseBody with
    | some body => [Effect.write body]
    | none => []
  headers ++ statusWrite ++ bodyWrite

/-- The statement `if err := check; err != nil { errs = append(errs, err.Error()) }`. -/
def appendError (errs : List String) (err : Option GoError) : List String :=
  match err with
  | some e => errs ++ [e.Error]
  | none => errs

/-- The messages the handler has collected when the five checks have run. -/
def handlerErrors (J : JSONCodec) (s : ServerMock) (r : Request) : List String :=
  let errs : List String := []
  let errs := appendError errs (checkMethod s r.Method)
  let errs := appendError errs (checkPath s r.URL.Path)
  let errs := appendError errs (checkValues s (getHeaders r) header s.config.Headers)
  let errs := appendError errs (checkValues s (getParameters r) parameter s.config.Parameters)
  let errs := appendError errs (checkPayload J s r)
  errs

/-- The report of the handler: nothing when no check failed. -/
def handlerReport (s : ServerMock) (errs : List String) : List Effect :=
  if errs.length > 0 then
    let err := joinErrors errs
    match s.config.T with
    | some t => [Effect.errorf t ("GoAPIpretender: " ++ err)]
    | none => [Effect.logPrintf ("GoAPIpretender: " ++ err)]
  else []

/-- The function `newHandler` returns, applied to a request. -/
def newHandler (J : JSONCodec) (s : ServerMock) (r : Request) : List Effect :=
  handlerReport s (handlerErrors J s r) ++ returnResponse s

/-! ## A JSON codec

The decoder and the tree equality of the Go standard library are not part of
the sources of this repository.  The spec (§4.3 (e), §9) describes them: a tree
that is a tagged variant over null, bool, number, string, array and object,
compared recursively, objects as sets of key/value pairs with the last
occurrence of a duplicate key, arrays position by position, numbers by decoded
value.  The codec below follows that description and the JSON grammar.  It
decodes a number to its exact decimal value and a `\u` escape to the character
of that code point, so it stands for the library on ASCII text and on numbers
a `float64` holds exactly.  It is the codec of the concrete examples; every
general theorem is stated for an arbitrary codec. -/

/-- Modelled from the spec: the parsed tree of a JSON text (the standard
library's decoded `any` is missing from the sources).  A number is
`mantissa * 10 ^ exponent`, the mantissa not divisible by ten. -/
inductive JSONValue where
  | null
  | bool (b : Bool)
  | number (mantissa exponent : Int)
  | string (s : String)
  | array (items : List JSONValue)
  | object (members : List (String × JSONValue))
deriving Repr

mutual
/-- Modelled from the spec: structural deep equality of two parsed trees (the
standard library's `reflect.DeepEqual` is missing from the sources). -/
def JSONValue.deepEqual : JSONValue → JSONValue → Bool
  | .null, .null => true
  | .bool a, .bool b => a == b
  | .number m e, .number m2 e2 => m == m2 && e == e2
  | .string a, .string b => a == b
  | .array xs, .array ys => JSONValue.deepEqualItems xs ys
  | .object xs, .object ys => xs.length == ys.length && JSONValue.deepEqualMembers xs ys
  | _, _ => false
/-- Arrays are compared position by position. -/
def JSONValue.deepEqualItems : List JSONValue → List JSONValue → Bool
  | [], [] => true
  | x :: xs, y :: ys => JSONValue.deepEqual x y && JSONValue.deepEqualItems xs ys
  | _, _ => false
/-- Every member of the first object has an equal member in the second. -/
def JSONValue.deepEqualMembers : GoMap JSONValue → GoMap JSONValue → Bool
  | [], _ => true
  | (k, x) :: xs, ys =>
    (match List.lookup k ys with
     | some y => JSONValue.deepEqual x y
     | none => false) && JSONValue.deepEqualMembers xs ys
end

def isSpace (c : Char) : Bool := c = ' ' ∨ c = '\t' ∨ c = '\n' ∨ c = '\r'

def skipSpace : List Char → List Char
  | [] => []
  | c :: cs => if isSpace c then skipSpace cs else c :: cs

def hexDigit (c : Char) : Option Nat :=
  if '0' ≤ c ∧ c ≤ '9' then some (c.toNat - '0'.toNat)
  else if 'a' ≤ c ∧ c ≤ 'f' then some (c.toNat - 'a'.toNat + 10)
  else if 'A' ≤ c ∧ c ≤ 'F' then some (c.toNat - 'A'.toNat + 10)
  else none

/-- The rest of a string literal, after its opening quote. -/
def parseString : List Char → List Char → Option (String × List Char)
  | [], _ => none
  | '"' :: rest, acc => some (String.mk acc.reverse, rest)
  | '\\' :: 'u' :: a :: b :: c :: d :: rest, acc =>
    match hexDigit a, hexDigit b, hexDigit c, hexDigit d with
    | some a, some b, some c, some d =>
      parseString rest (Char.ofNat (((a * 16 + b) * 16 + c) * 16 + d) :: acc)
    | _, _, _, _ => none
  | '\\' :: e :: rest, acc =>
    if e = '"' then parseString rest ('"' :: acc)
    else if e = '\\' then parseString rest ('\\' :: acc)
    else if e = '/' then parseString rest ('/' :: acc)
    else if e = 'b' then parseString rest (Char.ofNat 8 :: acc)
    else if e = 'f' then parseString rest (Char.ofNat 12 :: acc)
    else if e = 'n' then parseString rest ('\n' :: acc)
    else if e = 'r' then parseString rest ('\r' :: acc)
    else if e = 't' then parseString rest ('\t' :: acc)
    else none
  | c :: rest, acc =>
    if c.toNat < 32 ∨ c = '\\' then none else parseString rest (c :: acc)

def takeDigits : List Char → List Char × List Char
  | [] => ([], [])
  | c :: cs =>
    if c.isDigit then
      let (ds, rest) := takeDigits cs
      (c :: ds, rest)
    else ([], c :: cs)

def digitsValue (ds : List Char) : Nat :=
  ds.foldl (fun n c => n * 10 + (c.toNat - '0'.toNat)) 0

/-- Move the factors of ten of a mantissa into the exponent. -/
def normalise : Nat → Int → Int → Int × Int
  | 0, m, e => (m, e)
  | fuel + 1, m, e =>
    if m = 0 then (0, 0)
    else if m % 10 = 0 then normalise fuel (m / 10) (e + 1) else (m, e)

/-- A number literal: sign, integer part without a leading zero, fraction,
exponent. -/
def parseNumber (cs : List Char) : Option (JSONValue × List Char) :=
  let (neg, cs) := match cs with
    | '-' :: rest => (true, rest)
    | _ => (false, cs)
  let (ints, cs) := takeDigits cs
  if ints = [] ∨ (ints.length > 1 ∧ ints.head? = some '0') then none
  else
    let fracPart : Option (List Char × List Char) := match cs with
      | '.' :: rest =>
        let (fs, rest) := takeDigits rest
        if fs = [] then none else some (fs, rest)
      | _ => some ([], cs)
    match fracPart with
    | none => none
    | some (fracs, cs) =>
      let expPart : Option (Int × List Char) := match cs with
        | c :: rest =>
          if c = 'e' ∨ c = 'E' then
            let (eneg, rest) := match rest with
              | '-' :: r => (true, r)
              | '+' :: r => (false, r)
              | _ => (false, rest)
            let (es, rest) := takeDigits rest
            if es = [] then none
            else some (if eneg then - (digitsValue es : Int) else (digitsValue es : Int), rest)
          else some (0, cs)
        | [] => some (0, cs)
      match expPart with
      | none => none
      | some (e, cs) =>
        let m : Int := digitsValue (ints ++ fracs)
        let (m, e) :=
          normalise (ints.length + fracs.length) (if neg then -m else m) (e - fracs.length)
        some (JSONValue.number m e, cs)

mutual
/-- One JSON value at the head of the input, and the input left after it.
Each level of nesting uses two units of fuel. -/
def parseValue : Nat → List Char → Option (JSONValue × List Char)
  | 0, _ => none
  | fuel + 1, cs =>
    match skipSpace cs with
    | [] => none
    | 'n' :: 'u' :: 'l' :: 'l' :: rest => some (JSONValue.null, rest)
    | 't' :: 'r' :: 'u' :: 'e' :: rest => some (JSONValue.bool true, rest)
    | 'f' :: 'a' :: 'l' :: 's' :: 'e' :: rest => some (JSONValue.bool false, rest)
    | '"' :: rest =>
      match parseString rest [] with
      | some (s, rest) => some (JSONValue.string s, rest)
      | none => none
    | '[' :: rest =>
      match skipSpace rest with
      | ']' :: rest => some (JSONValue.array [], rest)
      | rest =>
        match parseItems fuel rest with
        | some (items, rest) => some (JSONValue.array items, rest)
        | none => none
    | '{' :: rest =>
      match skipSpace rest with
      | '}' :: rest => some (JSONValue.object [], rest)
      | rest =>
        match parseMembers fuel rest [] with
        | some (members, rest) => some (JSONValue.object members, rest)
        | none => none
    | c :: rest => if c = '-' ∨ c.isDigit then parseNumber (c :: rest) else none
/-- The items of an array after `[`, up to and including `]`. -/
def parseItems : Nat → List Char → Option (List JSONValue × List Char)
  | 0, _ => none
  | fuel + 1, cs =>
    match parseValue fuel cs with
    | none => none
    | some (v, rest) =>
      match skipSpace rest with
      | ',' :: rest =>
        match parseItems fuel rest with
        | some (vs, rest) => some (v :: vs, rest)
        | none => none
      | ']' :: rest => some ([v], rest)
      | _ => none
/-- The members of an object after `{`, up to and including `}`; a duplicate
key keeps its last value. -/
def parseMembers : Nat → List Char → GoMap JSONValue → Option (GoMap JSONValue × List Char)
  | 0, _, _ => none
  | fuel + 1, cs, acc =>
    match skipSpace cs with
    | '"' :: rest =>
      match parseString rest [] with
      | none => none
      | some (key, rest) =>
        match skipSpace rest with
        | ':' :: rest =>
          match parseValue fuel rest with
          | none => none
          | some (v, rest) =>
            match skipSpace rest with
            | ',' :: rest => parseMembers fuel rest (GoMap.set acc key v)
            | '}' :: rest => some (GoMap.set acc key v, rest)
            | _ => none
        | _ => none
    | _ => none
end

/-- Modelled from the spec: parsing a byte sequence as JSON (the standard
library's `json.Unmarshal` into an `any` is missing from the sources): one
value, white space around it, nothing else.  The fuel is twice the length of
the input and bounds the depth of the calls: a value, and each further item or
member, consumes a character. -/
def jsonUnmarshal (data : String) : Option JSONValue :=
  match parseValue (2 * data.data.length + 2) data.data with
  | some (v, rest) => if skipSpace rest = [] then some v else none
  | none => none

/-- The codec of the concrete examples. -/
def goJSON : JSONCodec where
  Value := JSONValue
  Unmarshal := jsonUnmarshal
  DeepEqual := JSONValue.deepEqual

/-! ## The contract, in the words of the spec -/

/-- The joined value of a key of a request's header or query mapping (§4.2):
its values joined with `", "`, the empty string for an absent key. -/
def joinedValue (m : GoMap (List String)) (key : String) : String :=
  match List.lookup key m with
  | some vs => stringsJoin vs ", "
  | none => ""

/-- The payload rules of §4.3 (e), read from the spec and not from the code:
fail when a body arrives and none is expected, fail when a non-empty payload
is expected and no body arrives, pass when both are absent or empty, otherwise
compare: as parsed JSON when the request's `Content-Type` begins with
`application/json`, byte for byte if not. -/
def payloadSatisfied (J : JSONCodec) (expected : Option String) (contentType body : String) :
    Bool :=
  if expected = none ∧ body ≠ "" then false
  else if bytesToString expected ≠ "" ∧ body = "" then false
  else if bytesToString expected = "" ∧ body = "" then true
  else if stringsHasPrefix contentType "application/json" then
    match J.Unmarshal (bytesToString expected), J.Unmarshal body with
    | some e, some a => J.DeepEqual e a
    | _, _ => false
  else decide (body = bytesToString expected)

/-- A request satisfies a contract, in the words of the spec (§3, §4.3): the
expected method and path are empty or equal to the request's, every expected
header and parameter equals the request's joined value, and the body satisfies
the payload rules. -/
def satisfiesContract (J : JSONCodec) (c : ServerMockConfig) (r : Request) : Bool :=
  decide (c.Method = "" ∨ c.Method = r.Method) &&
  decide (c.Path = "" ∨ c.Path = r.URL.Path) &&
  (rangeOf c.Headers).all (fun kv => decide (joinedValue r.Header kv.1 = kv.2)) &&
  (rangeOf c.Parameters).all (fun kv => decide (joinedValue r.URL.Query kv.1 = kv.2)) &&
  (match r.Body with
   | .ok body => payloadSatisfied J c.Payload (headerGet r.Header "Content-Type") body
   | .error _ => false)

/-- The entries of the expectations whose required value differs from the
actual value of their key, in the order `range` visits them. -/
def mismatching (values : GoMap String) (validators : Option (GoMap String)) :
    List (String × String) :=
  (rangeOf validators).filter (fun kv => decide (values.index kv.1 ≠ kv.2))

/-- The five checks of the handler, in the order the handler runs them. -/
def fiveChecks (J : JSONCodec) (s : ServerMock) (r : Request) : List (Option GoError) :=
  [checkMethod s r.Method,
   checkPath s r.URL.Path,
   checkValues s (getHeaders r) header s.config.Headers,
   checkValues s (getParameters r) parameter s.config.Parameters,
   checkPayload J s r]

/-- A call of the reporter: `Errorf` of the attached reporter, or the log. -/
def Effect.isReport : Effect → Bool
  | .errorf _ _ => true
  | .logPrintf _ => true
  | _ => false

/-- The sink a message goes to: the attached reporter, the log when there is
none. -/
def reportEffect : Option T → String → Effect
  | some t, msg => Effect.errorf t msg
  | none, msg => Effect.logPrintf msg

/-! ## Concrete mocks and requests -/

def testReporter : T := ⟨"tc"⟩

/-- The mock `NewConfiguredMockServer(ServerMockConfig{T: tc})`: nothing expected. -/
def bareMock : ServerMock := { config := { T := some testReporter } }

/-- A `GET /` with `Content-Type: application/json` and no body. -/
def jsonGet : Request :=
  { Method := "GET", URL := { Path := "/" },
    Header := [("Content-Type", ["application/json"])], Body := .ok "" }

/-- The JSON document `{"a":1,"b":[true,null]}`. -/
def expectedDoc : String := "\x7b\"a\":1,\"b\":[true,null]\x7d"

/-- The mock `NewDefaultMockServer().SetPayload(...).SetMethod("POST").SetT(tc)`. -/
def payloadMock : ServerMock :=
  { config := { Method := "POST", Payload := some expectedDoc,
                T := some testReporter } }

/-- The same JSON document as the payload of `payloadMock`, with other bytes. -/
def reorderedBody : String := "\x7b \"b\" : [true, null], \"a\" : 1.0 \x7d"

def jsonPost : Request :=
  { Method := "POST", URL := { Path := "/" },
    Header := [("Content-Type", ["application/json; charset=utf-8"])],
    Body := .ok reorderedBody }

def plainPost : Request :=
  { Method := "POST", URL := { Path := "/" }, Header := [("Accept", ["*/*"])],
    Body := .ok reorderedBody }

/-! ## The lifecycle -/

/-- What `Start` and `Stop` do to the outside world. -/
inductive LifecycleEvent where
  | newServer (srv : Server)
  | close (srv : Server)
  | logPrintln (msg : String)
deriving DecidableEq, Repr

def NewConfiguredMockServer (config : ServerMockConfig) : ServerMock :=
  { config := config }

def NewDefaultMockServer : ServerMock := {}

/-- The method `Start`.  `fresh` is the server `httptest.NewServer` binds if it
is called; the result is the mock after the call, the URL returned and what was
done. -/
def ServerMock.Start (s : ServerMock) (fresh : Server) :
    ServerMock × String × List LifecycleEvent :=
  match s.server with
  | some srv => (s, srv.URL, [])
  | none => ({ s with server := some fresh }, fresh.URL, [LifecycleEvent.newServer fresh])

/-- The method `Server`. -/
def ServerMock.Server (s : ServerMock) : Option Server := s.server

/-- The method `Stop`: the mock after the call, and what was done. -/
def ServerMock.Stop (s : ServerMock) : ServerMock × List LifecycleEvent :=
  match s.server with
  | none => (s, [LifecycleEvent.logPrintln "GoAPIpretender: warning - server already stopped"])
  | some srv =>
    ({ s with server := none },
     [LifecycleEvent.close srv,
      LifecycleEvent.logPrintln "GoAPIpretender: server stopped successfully"])

/-- A call of one of the three lifecycle methods. -/
inductive Call where
  | Start
  | Stop
  | Server
deriving DecidableEq, Repr

/-- A mock in the course of a sequence of calls, with everything done so far. -/
structure Run where
  mock : ServerMock
  events : List LifecycleEvent := []
deriving DecidableEq, Repr

/-- The number of servers bound so far. -/
def boundCount (events : List LifecycleEvent) : Nat :=
  (events.filter (fun e => match e with
    | LifecycleEvent.newServer _ => true
    | _ => false)).length

/-- One call.  `env n` is the server the `n`-th call of `httptest.NewServer`
binds. -/
def Run.step (env : Nat → Server) (st : Run) : Call → Run
  | Call.Start =>
    let out := st.mock.Start (env (boundCount st.events))
    { mock := out.1, events := st.events ++ out.2.2 }
  | Call.Stop =>
    let out := st.mock.Stop
    { mock := out.1, events := st.events ++ out.2 }
  | Call.Server => st

/-- A sequence of calls, first to last. -/
def Run.exec (env : Nat → Server) (calls : List Call) (st : Run) : Run :=
  calls.foldl (Run.step env) st

/-! ## The fluent mutators -/

def ServerMock.SetMethod (s : ServerMock) (method : String) : ServerMock :=
  { s with config := { s.config with Method := method } }

def ServerMock.SetPath (s : ServerMock) (path : String) : ServerMock :=
  { s with config := { s.config with Path := path } }

def ServerMock.SetT (s : ServerMock) (t : Option T) : ServerMock :=
  { s with config := { s.config with T := t } }

def ServerMock.SetPayload (s : ServerMock) (payload : Option String) : ServerMock :=
  { s with config := { s.config with Payload := payload } }

def ServerMock.SetResponseStatus (s : ServerMock) (status : Int) : ServerMock :=
  { s with config := { s.config with ResponseStatus := status } }

def ServerMock.SetResponseHeader (s : ServerMock) (headers : Option (GoMap String)) :
    ServerMock :=
  { s with config := { s.config with ResponseHeader := headers } }

def ServerMock.SetResponseBody (s : ServerMock) (body : Option String) : ServerMock :=
  { s with config := { s.config with ResponseBody := body } }

/-- A call of one of the seven mutators, with its argument. -/
inductive Mutator where
  | SetMethod (method : String)
  | SetPath (path : String)
  | SetT (t : Option T)
  | SetPayload (payload : Option String)
  | SetResponseStatus (status : Int)
  | SetResponseHeader (headers : Option (GoMap String))
  | SetResponseBody (body : Option String)
deriving DecidableEq, Repr

def Mutator.apply (s : ServerMock) : Mutator → ServerMock
  | Mutator.SetMethod method => s.SetMethod method
  | Mutator.SetPath path => s.SetPath path
  | Mutator.SetT t => s.SetT t
  | Mutator.SetPayload payload => s.SetPayload payload
  | Mutator.SetResponseStatus status => s.SetResponseStatus status
  | Mutator.SetResponseHeader headers => s.SetResponseHeader headers
  | Mutator.SetResponseBody body => s.SetResponseBody body

/-- A chain of mutator calls, first to last. -/
def applyChain (ms : List Mutator) (s : ServerMock) : ServerMock :=
  ms.foldl Mutator.apply s

/-- The value the last call for a field leaves, `init` when the chain has no
call for the field; `arg` picks the argument of the calls for the field. -/
def lastWrite {α : Type} (arg : Mutator → Option α) (ms : List Mutator) (init : α) : α :=
  ((ms.filterMap arg).getLast?).getD init

/-- The status writes among the writes of a response. -/
def statusWrites (effects : List Effect) : List Effect :=
  effects.filter (fun e => match e with
    | Effect.writeHeader _ => true
    | _ => false)

/-! ## What a started mock serves -/

/-- What the server of a mock does with a request.  `Start` binds
`httptest.NewServer(s.newHandler())`, and the handler reads the mock when the
request arrives; without a live server nothing is served. -/
def ServerMock.serve (J : JSONCodec) (s : ServerMock) (r : Request) : Option (List Effect) :=
  match s.server with
  | some _ => some (newHandler J s r)
  | none => none

/-- The writes of the handler that `TestServerMock_CustomMock` passes to
`SetCustomHandler`: status 201, body `mock-message`. -/
def customMockWrites : List Effect :=
  [Effect.writeHeader 201, Effect.write "mock-message"]

/-- A mock with the response plan of `TestServerMock_ResponseStatusAndBody`. -/
def responseMock : ServerMock :=
  { config := { Method := "POST", ResponseStatus := 201,
                ResponseHeader := some [("Custom-Header", "success")],
                ResponseBody := some "ok", T := some testReporter } }

/-- The invalid JSON text of the tests, `{"key:"value}`. -/
def invalidDoc : String := "\x7b\"key:\"value\x7d"

/-- The argument of a mutator call for each of the seven fields. -/
def Mutator.method : Mutator → Option String
  | Mutator.SetMethod v => some v
  | _ => none

def Mutator.path : Mutator → Option String
  | Mutator.SetPath v => some v
  | _ => none

def Mutator.reporter : Mutator → Option (Option T)
  | Mutator.SetT v => some v
  | _ => none

def Mutator.payload : Mutator → Option (Option String)
  | Mutator.SetPayload v => some v
  | _ => none

def Mutator.responseStatus : Mutator → Option Int
  | Mutator.SetResponseStatus v => some v
  | _ => none

def Mutator.responseHeader : Mutator → Option (Option (GoMap String))
  | Mutator.SetResponseHeader v => some v
  | _ => none

def Mutator.responseBody : Mutator → Option (Option String)
  | Mutator.SetResponseBody v => some v
  | _ => none

/-- The mock `payloadMock` with the configuration field `ContentType` set. -/
def contentTypeMock (contentType : String) : ServerMock :=
  { payloadMock with config := { payloadMock.config with ContentType := contentType } }

/-! ## Lemmas -/

theorem length_pos_iff_ne_empty (b : String) : b.length > 0 ↔ b ≠ "" := by
  cases b with
  | mk data =>
    cases data with
    | nil => simp [String.length]
    | cons c cs =>
      simp only [String.length, List.length_cons, gt_iff_lt, Nat.zero_lt_succ, true_iff]
      intro h
      have h2 := congrArg String.data h
      simp at h2

/-- The loop of `checkValues` appends one error for each mismatching entry, in
the order of the iteration. -/
theorem foldl_checkValuesStep (values : GoMap String) (param : String)
    (l : List (String × String)) (acc : List GoError) :
    l.foldl (checkValuesStep values param) acc =
      acc ++ (l.filter (fun kv => decide (values.index kv.1 ≠ kv.2))).map
        (fun kv => valueError param kv.1 kv.2 (values.index kv.1)) := by
  induction l generalizing acc with
  | nil => simp
  | cons kv rest ih =>
    rw [List.foldl_cons, ih]
    by_cases h : values.index kv.1 = kv.2
    · simp [checkValuesStep, h]
    · simp [checkValuesStep, h]

theorem index_set_of_ne (m : GoMap String) (k v k2 : String) (h : k2 ≠ k) :
    GoMap.index (GoMap.set m k v) k2 = GoMap.index m k2 := by
  have hb : (k2 == k) = false := by simpa using h
  induction m with
  | nil =>
    simp [GoMap.set, GoMap.index, List.lookup, hb]
  | cons e rest ih =>
    obtain ⟨k0, v0⟩ := e
    unfold GoMap.index at ih ⊢
    by_cases h0 : k0 = k
    · subst h0
      simp [GoMap.set, List.lookup, hb]
    · cases hk : (k2 == k0) with
      | true => simp [GoMap.set, List.lookup, h0, hk]
      | false => simp [GoMap.set, List.lookup, h0, hk, ih]

/-- The result of `checkValues`, by the mismatching entries. -/
theorem checkValues_eq (s : ServerMock) (values : GoMap String) (param : String)
    (validators : Option (GoMap String)) :
    checkValues s values param validators =
      if mismatching values validators = [] then none
      else some ⟨stringsJoin ((mismatching values validators).map
        (fun kv => "invalid " ++ kv.1 ++ " " ++ param ++ ": expected '" ++ kv.2
          ++ "', got '" ++ values.index kv.1 ++ "'")) "\n"⟩ := by
  unfold checkValues
  simp only [foldl_checkValuesStep, List.nil_append, List.length_map]
  change (if (mismatching values validators).length > 0 then _ else _) = _
  by_cases hb : mismatching values validators = []
  · simp [hb]
  · have hpos := List.length_pos_of_ne_nil hb
    rw [if_pos hpos, if_neg hb]
    simp [errorsToStrings, valueError, GoError.Error, Function.comp_def, mismatching]

theorem mismatching_eq_nil_iff (values : GoMap String) (validators : Option (GoMap String)) :
    mismatching values validators = [] ↔
      ∀ key value, (key, value) ∈ rangeOf validators →
        (List.lookup key values).getD "" = value := by
  unfold mismatching
  rw [List.filter_eq_nil_iff]
  constructor
  · intro h key value hmem
    have := h (key, value) hmem
    simpa [GoMap.index] using this
  · intro h kv hmem
    have := h kv.1 kv.2 hmem
    simpa [GoMap.index] using this

theorem mismatching_set_of_ne (values : GoMap String) (validators : Option (GoMap String))
    (key value : String) (hkeys : ∀ kv ∈ rangeOf validators, kv.1 ≠ key) :
    mismatching (GoMap.set values key value) validators = mismatching values validators := by
  unfold mismatching
  apply List.filter_congr
  intro kv hmem
  rw [index_set_of_ne values key value kv.1 (hkeys kv hmem)]

/-! ## Method and path -/

/-- C5: `checkMethod` returns an error exactly when the expected method is
non-empty and the request method differs from it as a string (so `post` is not
`POST`), and the error then reads
`invalid method, got: '<a>' expected: '<e>'`. -/
theorem checkMethod_error_iff (s : ServerMock) (a : String) :
    (checkMethod s a ≠ none ↔ s.config.Method ≠ "" ∧ a ≠ s.config.Method) ∧
    (checkMethod s a ≠ none →
      checkMethod s a =
        some ⟨"invalid method, got: '" ++ a ++ "' expected: '" ++ s.config.Method ++ "'"⟩) := by
  unfold checkMethod
  by_cases h : s.config.Method ≠ "" ∧ a ≠ s.config.Method
  · simp [h]
  · rw [if_neg h]
    simp [h]

/-- The method check of `POST` rejects `post` and `GET`, and accepts `POST`. -/
theorem checkMethod_error_iff_witness :
    checkMethod { config := { Method := "POST" } } "post" =
      some ⟨"invalid method, got: 'post' expected: 'POST'"⟩ ∧
    checkMethod { config := { Method := "POST" } } "POST" = none :=
  ⟨(checkMethod_error_iff { config := { Method := "POST" } } "post").2 (by decide), by decide⟩

/-- C6: `checkPath` returns an error exactly when the expected path is
non-empty and the request path differs from it, and the error then reads
`invalid path, got: '<p>' expected: '<e>'`. -/
theorem checkPath_error_iff (s : ServerMock) (p : String) :
    (checkPath s p ≠ none ↔ s.config.Path ≠ "" ∧ p ≠ s.config.Path) ∧
    (checkPath s p ≠ none →
      checkPath s p =
        some ⟨"invalid path, got: '" ++ p ++ "' expected: '" ++ s.config.Path ++ "'"⟩) := by
  unfold checkPath
  by_cases h : s.config.Path ≠ "" ∧ p ≠ s.config.Path
  · simp [h]
  · rw [if_neg h]
    simp [h]

/-- The path check of `/expected-path` rejects `/wrong-path`. -/
theorem checkPath_error_iff_witness :
    checkPath { config := { Path := "/expected-path" } } "/wrong-path" =
      some ⟨"invalid path, got: '/wrong-path' expected: '/expected-path'"⟩ ∧
    checkPath { config := { Path := "/expected-path" } } "/expected-path" = none :=
  ⟨(checkPath_error_iff { config := { Path := "/expected-path" } } "/wrong-path").2 (by decide),
    by decide⟩

/-! ## Headers and parameters -/

/-- C7: `checkValues` returns no error exactly when every expected key's
required value equals the actual value of that key, a key missing from the
actual mapping being read as the empty string; the expectations may be `nil`
or empty.  A key of the request that the expectations do not name changes
nothing. -/
theorem checkValues_none_iff (s : ServerMock) (values : GoMap String) (param : String)
    (validators : Option (GoMap String)) :
    (checkValues s values param validators = none ↔
      ∀ key value, (key, value) ∈ rangeOf validators →
        (List.lookup key values).getD "" = value) ∧
    (∀ key value, (∀ kv ∈ rangeOf validators, kv.1 ≠ key) →
      checkValues s (GoMap.set values key value) param validators =
        checkValues s values param validators) := by
  constructor
  · rw [checkValues_eq, ← mismatching_eq_nil_iff]
    by_cases hb : mismatching values validators = []
    · simp [hb]
    · simp [hb]
  · intro key value hkeys
    have hm := mismatching_set_of_ne values validators key value hkeys
    rw [checkValues_eq, checkValues_eq, hm]
    by_cases hb : mismatching values validators = []
    · simp [hb]
    · rw [if_neg hb, if_neg hb]
      have hmap : ∀ kv ∈ mismatching values validators,
          GoMap.index (GoMap.set values key value) kv.1 = GoMap.index values kv.1 := by
        intro kv hmem
        exact index_set_of_ne values key value kv.1
          (hkeys kv (List.mem_of_mem_filter hmem))
      congr 3
      apply List.map_congr_left
      intro kv hmem
      rw [hmap kv hmem]

/-- The header expectations of the example test accept the matching request,
whatever other headers it carries. -/
theorem checkValues_none_iff_witness :
    checkValues {} [("Accept", "*/*"), ("Authorization", "Bearer token123")] header
      (some [("Authorization", "Bearer token123")]) = none ∧
    checkValues {} (GoMap.set [("Authorization", "Bearer token123")] "User-Agent" "Go") header
      (some [("Authorization", "Bearer token123")]) =
      checkValues {} [("Authorization", "Bearer token123")] header
        (some [("Authorization", "Bearer token123")]) :=
  ⟨(checkValues_none_iff {} [("Accept", "*/*"), ("Authorization", "Bearer token123")] header
      (some [("Authorization", "Bearer token123")])).1.2
      (by
        intro key value hmem
        simp only [rangeOf, List.mem_singleton, Prod.mk.injEq] at hmem
        obtain ⟨rfl, rfl⟩ := hmem
        decide),
   (checkValues_none_iff {} [("Authorization", "Bearer token123")] header
      (some [("Authorization", "Bearer token123")])).2 "User-Agent" "Go"
      (by
        intro kv hmem
        simp only [rangeOf, List.mem_singleton] at hmem
        subst hmem
        decide)⟩

/-- C8: when at least one expected key mismatches, the error of `checkValues`
is the newline-join of one line per mismatching entry of the expectations, in
the order the loop visits them, and of no other line; the line of a key is
`invalid <key> <word>: expected '<expected>', got '<actual>'`, the word being
`header` in the header check and `parameter` in the parameter check. -/
theorem checkValues_error_lines (s : ServerMock) (values : GoMap String) (param : String)
    (validators : Option (GoMap String)) (h : mismatching values validators ≠ []) :
    checkValues s values param validators =
      some ⟨stringsJoin ((mismatching values validators).map
        (fun kv => "invalid " ++ kv.1 ++ " " ++ param ++ ": expected '" ++ kv.2
          ++ "', got '" ++ values.index kv.1 ++ "'")) "\n"⟩ ∧
    (∀ kv, kv ∈ mismatching values validators ↔
      kv ∈ rangeOf validators ∧ values.index kv.1 ≠ kv.2) ∧
    (((rangeOf validators).map Prod.fst).Nodup →
      ((mismatching values validators).map Prod.fst).Nodup) ∧
    header = "header" ∧ parameter = "parameter" := by
  refine ⟨?_, ?_, ?_, rfl, rfl⟩
  · rw [checkValues_eq, if_neg h]
  · intro kv
    simp [mismatching, List.mem_filter]
  · intro hnd
    exact hnd.sublist (List.Sublist.map Prod.fst (List.filter_sublist _))

/-- Two of three expected headers mismatch, one of them missing from the
request: two lines. -/
theorem checkValues_error_lines_witness :
    checkValues {} [("X-A", "1"), ("X-B", "wrong")] header
      (some [("X-A", "1"), ("X-B", "2"), ("X-C", "3")]) =
    some ⟨"invalid X-B header: expected '2', got 'wrong'\ninvalid X-C header: expected '3', got ''"⟩ := by
  have h := (checkValues_error_lines {} [("X-A", "1"), ("X-B", "wrong")] header
    (some [("X-A", "1"), ("X-B", "2"), ("X-C", "3")]) (by decide)).1
  rw [h]
  decide

/-! ## The payload check -/

/-- C3: with an expected payload and a non-empty body that both parse as
JSON, and a request `Content-Type` beginning with `application/json`, the
payload check passes exactly when the two parsed trees are deep-equal, whatever
the bytes; when they are not it fails with
`Mismatched JSON payload, got: '<body>', expected: '<expected_payload>'`.
(A payload that parses is non-empty; the proof needs only that it is present.) -/
theorem checkPayload_json (J : JSONCodec) (s : ServerMock) (r : Request)
    (expected body : String) (te tb : J.Value)
    (hexp : s.config.Payload = some expected)
    (hbody : r.Body = .ok body) (hnb : body ≠ "")
    (hct : stringsHasPrefix (headerGet r.Header "Content-Type") "application/json" = true)
    (hte : J.Unmarshal expected = some te) (htb : J.Unmarshal body = some tb) :
    (checkPayload J s r = none ↔ J.DeepEqual te tb = true) ∧
    (J.DeepEqual te tb = false →
      checkPayload J s r =
        some ⟨"Mismatched JSON payload, got: '" ++ body ++ "', expected: '" ++ expected ++ "'"⟩) := by
  have hb : body.length > 0 := (length_pos_iff_ne_empty body).2 hnb
  have hb0 : ¬ body.length = 0 := Nat.pos_iff_ne_zero.1 hb
  unfold checkPayload
  rw [hbody]
  simp only [hexp, bytesToString, hb0, and_false, if_false, false_and, reduceCtorEq]
  unfold comparePayloads isJSONrequest
  simp only [hct, hexp, bytesToString, hte, htb, not_true_eq_false, if_false]
  cases hd : J.DeepEqual te tb <;> simp

/-- The payload `{"a":1,"b":[true,null]}` accepts the body
`{ "b" : [true, null], "a" : 1.0 }` sent as JSON: other bytes, the same tree. -/
theorem checkPayload_json_witness :
    reorderedBody ≠ expectedDoc ∧
    checkPayload goJSON payloadMock jsonPost = none :=
  ⟨by decide,
   (checkPayload_json goJSON payloadMock jsonPost expectedDoc reorderedBody
      (JSONValue.object [("a", .number 1 0), ("b", .array [.bool true, .null])])
      (JSONValue.object [("b", .array [.bool true, .null]), ("a", .number 1 0)])
      rfl rfl (by decide) (by decide) rfl rfl).1.2 (by decide)⟩

/-- C4: with an expected payload (non-empty or not, as long as it is present)
and a non-empty body, and a request `Content-Type` that does not begin with
`application/json`, the payload check passes exactly when the body equals the
expected bytes, and fails otherwise with
`Unexpected payload received, got: '<body>', expected: '<expected_payload>'`;
so a body with the same JSON tree and other bytes is rejected with that
message. -/
theorem checkPayload_bytes (J : JSONCodec) (s : ServerMock) (r : Request)
    (expected body : String)
    (hexp : s.config.Payload = some expected)
    (hbody : r.Body = .ok body) (hnb : body ≠ "")
    (hct : stringsHasPrefix (headerGet r.Header "Content-Type") "application/json" = false) :
    (checkPayload J s r = none ↔ body = expected) ∧
    (body ≠ expected →
      checkPayload J s r =
        some ⟨"Unexpected payload received, got: '" ++ body ++ "', expected: '"
          ++ expected ++ "'"⟩) ∧
    (∀ te tb, J.Unmarshal expected = some te → J.Unmarshal body = some tb →
      J.DeepEqual te tb = true → body ≠ expected →
      checkPayload J s r =
        some ⟨"Unexpected payload received, got: '" ++ body ++ "', expected: '"
          ++ expected ++ "'"⟩) := by
  have hb : body.length > 0 := (length_pos_iff_ne_empty body).2 hnb
  have hb0 : ¬ body.length = 0 := Nat.pos_iff_ne_zero.1 hb
  have hmain : checkPayload J s r =
      if body ≠ expected then
        some ⟨"Unexpected payload received, got: '" ++ body ++ "', expected: '"
          ++ expected ++ "'"⟩
      else none := by
    unfold checkPayload
    rw [hbody]
    simp only [hexp, bytesToString, hb0, and_false, if_false, false_and, reduceCtorEq]
    unfold comparePayloads isJSONrequest
    simp only [hct, hexp, bytesToString, Bool.false_eq_true, not_false_eq_true, if_true]
  rw [hmain]
  refine ⟨?_, ?_, ?_⟩
  · by_cases h : body = expected <;> simp [h]
  · intro h
    rw [if_pos h]
  · intro _ _ _ _ _ h
    rw [if_pos h]

/-- The body `{ "b" : [true, null], "a" : 1.0 }`, sent without a JSON content
type against the payload `{"a":1,"b":[true,null]}`, is rejected although the
two are the same JSON document. -/
theorem checkPayload_bytes_witness :
    checkPayload goJSON payloadMock plainPost =
      some ⟨"Unexpected payload received, got: '" ++ reorderedBody ++ "', expected: '"
        ++ expectedDoc ++ "'"⟩ :=
  (checkPayload_bytes goJSON payloadMock plainPost expectedDoc reorderedBody
    rfl rfl (by decide) (by decide)).2.2
    (JSONValue.object [("a", .number 1 0), ("b", .array [.bool true, .null])])
    (JSONValue.object [("b", .array [.bool true, .null]), ("a", .number 1 0)])
    rfl rfl (by decide) (by decide)

/-- C9: the code at the failing input.  A request without a body and with
`Content-Type: application/json`, against a contract without an expected
payload, does not pass the payload check: the absent expectation is handed to
the JSON decoder, and the check fails with `Invalid expected JSON: ''`.  The
same request without the header passes. -/
theorem checkPayload_empty_json_fails :
    bareMock.config.Payload = none ∧ jsonGet.Body = .ok "" ∧
    checkPayload goJSON bareMock jsonGet = some ⟨"Invalid expected JSON: ''"⟩ ∧
    checkPayload goJSON bareMock { jsonGet with Header := [] } = none :=
  ⟨rfl, rfl, by decide, by decide⟩

/-- C10: when the expected payload is absent and the body is non-empty, the
payload check fails with
`Unexpected payload received, got: '<body>', but none was expected`; when the
expected payload is non-empty and the body is empty, it fails with
`Expected a request payload, but none was received`.  Neither result depends on
the headers of the request or on the JSON codec: nothing is compared. -/
theorem checkPayload_one_sided (J : JSONCodec) (s : ServerMock) (r : Request) (body : String)
    (hbody : r.Body = .ok body) :
    (s.config.Payload = none → body ≠ "" →
      checkPayload J s r =
        some ⟨"Unexpected payload received, got: '" ++ body ++ "', but none was expected"⟩) ∧
    (bytesToString s.config.Payload ≠ "" → body = "" →
      checkPayload J s r = some ⟨"Expected a request payload, but none was received"⟩) := by
  unfold checkPayload
  rw [hbody]
  constructor
  · intro hnone hnb
    have hb : body.length > 0 := (length_pos_iff_ne_empty body).2 hnb
    simp only [hnone, hb, and_self, if_true]
  · intro hne hempty
    have he : (bytesToString s.config.Payload).length > 0 :=
      (length_pos_iff_ne_empty _).2 hne
    subst hempty
    have hsome : s.config.Payload ≠ none := by
      intro hn
      rw [hn] at hne
      exact hne rfl
    simp [hsome, he]

/-- The two tests of the repository: `mock-payload` against no expectation,
and no body against `expected-payload`, the second sent as JSON. -/
theorem checkPayload_one_sided_witness :
    checkPayload goJSON bareMock
        { Method := "POST", Header := [("Content-Type", ["application/json"])],
          Body := .ok "mock-payload" } =
      some ⟨"Unexpected payload received, got: 'mock-payload', but none was expected"⟩ ∧
    checkPayload goJSON { config := { Payload := some "expected-payload" } }
        { Method := "POST", Header := [("Content-Type", ["application/json"])],
          Body := .ok "" } =
      some ⟨"Expected a request payload, but none was received"⟩ :=
  ⟨(checkPayload_one_sided goJSON bareMock
      { Method := "POST", Header := [("Content-Type", ["application/json"])],
        Body := .ok "mock-payload" } "mock-payload" rfl).1 rfl (by decide),
   (checkPayload_one_sided goJSON { config := { Payload := some "expected-payload" } }
      { Method := "POST", Header := [("Content-Type", ["application/json"])],
        Body := .ok "" } "" rfl).2 (by decide) rfl⟩

/-! ## The handler -/

/-- The handler collects the messages of the failing checks, in the order of
the checks. -/
theorem handlerErrors_eq (J : JSONCodec) (s : ServerMock) (r : Request) :
    handlerErrors J s r = (fiveChecks J s r).filterMap (fun c => c.map GoError.Error) := by
  unfold handlerErrors fiveChecks
  cases checkMethod s r.Method <;> cases checkPath s r.URL.Path <;>
    cases checkValues s (getHeaders r) header s.config.Headers <;>
    cases checkValues s (getParameters r) parameter s.config.Parameters <;>
    cases checkPayload J s r <;> simp [appendError]

/-- Emitting the response calls neither the reporter nor the log. -/
theorem returnResponse_no_report (s : ServerMock) :
    (returnResponse s).filter Effect.isReport = [] := by
  rw [List.filter_eq_nil_iff]
  intro e he
  unfold returnResponse at he
  simp only [List.mem_append] at he
  rcases he with (he | he) | he
  · cases hh : s.config.ResponseHeader with
    | none => simp [hh] at he
    | some m =>
      simp only [hh, List.mem_map] at he
      obtain ⟨kv, _, rfl⟩ := he
      simp [Effect.isReport]
  · split_ifs at he
    all_goals first
      | (simp only [List.mem_singleton] at he
         subst he
         simp [Effect.isReport])
      | simp at he
  · cases hb : s.config.ResponseBody with
    | none => simp [hb] at he
    | some b =>
      simp only [hb, List.mem_singleton] at he
      subst he
      simp [Effect.isReport]

/-- The reports of the handler are those of its report step. -/
theorem newHandler_reports (J : JSONCodec) (s : ServerMock) (r : Request) :
    (newHandler J s r).filter Effect.isReport =
      if handlerErrors J s r = [] then []
      else [reportEffect s.config.T ("GoAPIpretender: " ++ stringsJoin (handlerErrors J s r) "\n")] := by
  unfold newHandler
  rw [List.filter_append, returnResponse_no_report, List.append_nil]
  unfold handlerReport
  by_cases h : handlerErrors J s r = []
  · simp [h]
  · have hpos := List.length_pos_of_ne_nil h
    rw [if_pos hpos, if_neg h]
    cases ht : s.config.T <;> simp [reportEffect, joinErrors, Effect.isReport]

theorem lookup_set {β : Type} (m : GoMap β) (k k2 : String) (v : β) :
    List.lookup k2 (GoMap.set m k v) = if k2 = k then some v else List.lookup k2 m := by
  induction m with
  | nil =>
    by_cases h : k2 = k
    · simp [GoMap.set, List.lookup, h]
    · have hb : (k2 == k) = false := by simpa using h
      simp [GoMap.set, List.lookup, h, hb]
  | cons e rest ih =>
    obtain ⟨k0, v0⟩ := e
    by_cases h0 : k0 = k
    · subst h0
      by_cases h : k2 = k0
      · simp [GoMap.set, List.lookup, h]
      · have hb : (k2 == k0) = false := by simpa using h
        simp [GoMap.set, List.lookup, h, hb]
    · cases hk : (k2 == k0) with
      | true =>
        have hk2 : k2 = k0 := by simpa using hk
        have hne : ¬ k2 = k := fun hc => h0 (hk2 ▸ hc)
        simp [GoMap.set, List.lookup, h0, hk, hne]
      | false => simp [GoMap.set, List.lookup, h0, hk, ih]

theorem lookup_eq_none_of_not_mem {β : Type} (l : GoMap β) (k : String)
    (h : k ∉ l.map Prod.fst) : List.lookup k l = none := by
  induction l with
  | nil => rfl
  | cons e rest ih =>
    obtain ⟨k0, v0⟩ := e
    simp only [List.map_cons, List.mem_cons, not_or] at h
    have hb : (k == k0) = false := by simpa using h.1
    simp [List.lookup, hb, ih h.2]

/-- The loop of `getHeaders` and `getParameters`: over a map (distinct keys),
each key ends up with the join of its values, and the other keys of the
accumulator keep their value. -/
theorem lookup_foldl_set_join (l : GoMap (List String)) (acc : GoMap String) (k : String)
    (hnd : (l.map Prod.fst).Nodup) :
    List.lookup k
        (l.foldl (fun m kv => GoMap.set m kv.1 (stringsJoin kv.2 ", ")) acc) =
      match List.lookup k l with
      | some vs => some (stringsJoin vs ", ")
      | none => List.lookup k acc := by
  induction l generalizing acc with
  | nil => simp [List.lookup]
  | cons e rest ih =>
    obtain ⟨k0, v0⟩ := e
    simp only [List.map_cons, List.nodup_cons] at hnd
    rw [List.foldl_cons, ih _ hnd.2]
    by_cases hk : k = k0
    · subst hk
      rw [lookup_eq_none_of_not_mem rest k hnd.1]
      simp [List.lookup, lookup_set]
    · have hb : (k == k0) = false := by simpa using hk
      simp only [List.lookup, hb, lookup_set, if_neg hk]

theorem index_getHeaders (r : Request) (k : String) (hnd : (r.Header.map Prod.fst).Nodup) :
    (getHeaders r).index k = joinedValue r.Header k := by
  unfold getHeaders GoMap.index joinedValue
  rw [lookup_foldl_set_join r.Header [] k hnd]
  cases List.lookup k r.Header <;> simp [List.lookup]

theorem index_getParameters (r : Request) (k : String)
    (hnd : (r.URL.Query.map Prod.fst).Nodup) :
    (getParameters r).index k = joinedValue r.URL.Query k := by
  unfold getParameters GoMap.index joinedValue
  rw [lookup_foldl_set_join r.URL.Query [] k hnd]
  cases List.lookup k r.URL.Query <;> simp [List.lookup]

/-- The payload check agrees with the payload rules of the spec, except on a
JSON request with no body against no expected bytes. -/
theorem checkPayload_none_of_payloadSatisfied (J : JSONCodec) (s : ServerMock) (r : Request)
    (body : String) (hbody : r.Body = .ok body)
    (hsat : payloadSatisfied J s.config.Payload (headerGet r.Header "Content-Type") body = true)
    (hdef : ¬ (isJSONrequest s r = true ∧ bytesToString s.config.Payload = "" ∧ body = "")) :
    checkPayload J s r = none := by
  unfold payloadSatisfied at hsat
  unfold checkPayload
  rw [hbody]
  have hz : body.length = 0 ↔ body = "" := by
    have := length_pos_iff_ne_empty body
    constructor
    · intro h0
      by_contra hne
      have := this.2 hne
      omega
    · intro h0
      subst h0
      rfl
  simp only [length_pos_iff_ne_empty, hz]
  split_ifs at hsat with h1 h2 h3 h4
  · rw [if_neg h1, if_neg h2]
    unfold comparePayloads
    have hj : isJSONrequest s r = false := by
      cases hj : isJSONrequest s r
      · rfl
      · exact absurd ⟨hj, h3.1, h3.2⟩ hdef
    simp [hj, h3.1, h3.2]
  · rw [if_neg h1, if_neg h2]
    unfold comparePayloads
    have hj : isJSONrequest s r = true := h4
    simp only [hj, not_true_eq_false, if_false]
    cases he : J.Unmarshal (bytesToString s.config.Payload) with
    | none => simp [he] at hsat
    | some e =>
      cases ha : J.Unmarshal body with
      | none => simp [he, ha] at hsat
      | some a =>
        simp only [he, ha] at hsat
        simp [hsat]
  · rw [if_neg h1, if_neg h2]
    unfold comparePayloads
    have hj : isJSONrequest s r = false := by
      simpa [isJSONrequest] using h4
    have heq : body = bytesToString s.config.Payload := by simpa using hsat
    simp [hj, heq]

/-- The claim of C1 away from the defect: a request that satisfies the
contract in the words of the spec, and is not a JSON request with no body
against no expected bytes, makes the handler report nothing. -/
theorem newHandler_silent_of_satisfiesContract (J : JSONCodec) (s : ServerMock) (r : Request)
    (hH : (r.Header.map Prod.fst).Nodup) (hQ : (r.URL.Query.map Prod.fst).Nodup)
    (hsat : satisfiesContract J s.config r = true)
    (hdef : ¬ (isJSONrequest s r = true ∧ bytesToString s.config.Payload = "" ∧
      r.Body = .ok "")) :
    (newHandler J s r).filter Effect.isReport = [] := by
  unfold satisfiesContract at hsat
  simp only [Bool.and_eq_true, decide_eq_true_eq, List.all_eq_true] at hsat
  obtain ⟨⟨⟨⟨hm, hp⟩, hh⟩, hq⟩, hb⟩ := hsat
  have h1 : checkMethod s r.Method = none := by
    unfold checkMethod
    rcases hm with hm | hm
    · simp [hm]
    · simp [hm]
  have h2 : checkPath s r.URL.Path = none := by
    unfold checkPath
    rcases hp with hp | hp
    · simp [hp]
    · simp [hp]
  have h3 : checkValues s (getHeaders r) header s.config.Headers = none := by
    rw [(checkValues_eq s (getHeaders r) header s.config.Headers),
      if_pos ((mismatching_eq_nil_iff _ _).2 ?_)]
    intro key value hmem
    have := hh (key, value) hmem
    rw [← index_getHeaders r key hH] at this
    exact this
  have h4 : checkValues s (getParameters r) parameter s.config.Parameters = none := by
    rw [(checkValues_eq s (getParameters r) parameter s.config.Parameters),
      if_pos ((mismatching_eq_nil_iff _ _).2 ?_)]
    intro key value hmem
    have := hq (key, value) hmem
    rw [← index_getParameters r key hQ] at this
    exact this
  have h5 : checkPayload J s r = none := by
    cases hbody : r.Body with
    | error e => simp [hbody] at hb
    | ok body =>
      rw [hbody] at hb
      apply checkPayload_none_of_payloadSatisfied J s r body hbody hb
      intro ⟨hj, he, hbe⟩
      exact hdef ⟨hj, he, by rw [hbody, hbe]⟩
  rw [newHandler_reports]
  have herrs : handlerErrors J s r = [] := by
    rw [handlerErrors_eq]
    simp [fiveChecks, h1, h2, h3, h4, h5]
  rw [if_pos herrs]

/-- C2: the handler makes at most one report (a call of the reporter's
`Errorf`, or of the log when no reporter is attached); it makes one exactly when
at least one of the five checks returns an error; and the message of the report
is `GoAPIpretender: ` followed by the messages of the failing checks, and only
of them, joined with a newline in the order method, path, header, parameter,
payload. -/
theorem newHandler_report_once (J : JSONCodec) (s : ServerMock) (r : Request) :
    ((newHandler J s r).filter Effect.isReport).length ≤ 1 ∧
    ((newHandler J s r).filter Effect.isReport ≠ [] ↔ ∃ c ∈ fiveChecks J s r, c ≠ none) ∧
    ((newHandler J s r).filter Effect.isReport ≠ [] →
      (newHandler J s r).filter Effect.isReport =
        [reportEffect s.config.T ("GoAPIpretender: " ++
          stringsJoin ((fiveChecks J s r).filterMap (fun c => c.map GoError.Error)) "\n")]) := by
  have hne : handlerErrors J s r = [] ↔ ¬ ∃ c ∈ fiveChecks J s r, c ≠ none := by
    rw [handlerErrors_eq, List.filterMap_eq_nil_iff]
    constructor
    · intro h ⟨c, hc, hcn⟩
      have := h c hc
      cases c with
      | none => exact hcn rfl
      | some e => simp at this
    · intro h c hc
      cases c with
      | none => rfl
      | some e => exact absurd ⟨some e, hc, by simp⟩ h
  rw [newHandler_reports]
  by_cases h : handlerErrors J s r = []
  · have h2 := hne.1 h
    simp [h, h2]
  · have h2 : ∃ c ∈ fiveChecks J s r, c ≠ none := by
      by_contra hcon
      exact h (hne.2 hcon)
    rw [if_neg h]
    refine ⟨by simp, ⟨fun _ => h2, fun _ => by simp⟩, fun _ => ?_⟩
    rw [handlerErrors_eq]

/-- A `GET /wrong` with a missing header against a contract for `POST /x`
with that header and a payload: one call of `Errorf`, four lines, in the order
of the checks. -/
theorem newHandler_report_once_witness :
    (newHandler goJSON
        { config := { Method := "POST", Path := "/x", Headers := some [("X-Key", "k")],
                      Payload := some "p", T := some testReporter } }
        { Method := "GET", URL := { Path := "/wrong" }, Body := .ok "" }).filter
        Effect.isReport =
      [Effect.errorf testReporter
        "GoAPIpretender: invalid method, got: 'GET' expected: 'POST'\ninvalid path, got: '/wrong' expected: '/x'\ninvalid X-Key header: expected 'k', got ''\nExpected a request payload, but none was received"] := by
  have h := (newHandler_report_once goJSON
        { config := { Method := "POST", Path := "/x", Headers := some [("X-Key", "k")],
                      Payload := some "p", T := some testReporter } }
        { Method := "GET", URL := { Path := "/wrong" }, Body := .ok "" }).2.2 (by decide)
  rw [h]
  decide

/-- C1: the code at the failing input.  A `GET /` without a body and with
`Content-Type: application/json` satisfies, in the words of the spec, the
contract that expects nothing (both payloads are absent); the handler
nevertheless calls `Errorf`, with `GoAPIpretender: Invalid expected JSON: ''`. -/
theorem newHandler_reports_on_satisfying_request :
    satisfiesContract goJSON bareMock.config jsonGet = true ∧
    newHandler goJSON bareMock jsonGet =
      [Effect.errorf testReporter "GoAPIpretender: Invalid expected JSON: ''",
       Effect.writeHeader 200] := by
  constructor <;> decide

/-! ## Present-but-empty expectations, invalid JSON -/

/-- C11, as the claim states it, fails: against the body `mock-payload` the
contract with no expected payload and the contract with a present, empty one
both fail, with different messages. -/
theorem checkPayload_empty_vs_absent_differ :
    checkPayload goJSON { config := { Payload := none } } { Body := .ok "mock-payload" } =
      some ⟨"Unexpected payload received, got: 'mock-payload', but none was expected"⟩ ∧
    checkPayload goJSON { config := { Payload := some "" } } { Body := .ok "mock-payload" } =
      some ⟨"Unexpected payload received, got: 'mock-payload', expected: ''"⟩ ∧
    checkPayload goJSON { config := { Payload := some "" } } { Body := .ok "mock-payload" } ≠
      checkPayload goJSON { config := { Payload := none } } { Body := .ok "mock-payload" } := by
  refine ⟨by decide, by decide, by decide⟩

/-- C11, amended: for a decoder that rejects the empty input, the contract with
a present, empty expected payload and the otherwise identical contract with an
absent one pass the payload check on the same requests; they give the same
result when the body is empty or cannot be read; on a non-empty body the absent
one fails with `..., but none was expected` and the empty one with the message
of the comparison: `Invalid expected JSON: ''` on a JSON request,
`Unexpected payload received, got: '<body>', expected: ''` otherwise. -/
theorem checkPayload_empty_vs_absent (J : JSONCodec) (s : ServerMock) (r : Request)
    (hJ : J.Unmarshal "" = none) :
    (checkPayload J (s.SetPayload (some "")) r = none ↔
      checkPayload J (s.SetPayload none) r = none) ∧
    (r.Body = .ok "" ∨ (∃ err, r.Body = .error err) →
      checkPayload J (s.SetPayload (some "")) r = checkPayload J (s.SetPayload none) r) ∧
    (∀ body, r.Body = .ok body → body ≠ "" →
      checkPayload J (s.SetPayload none) r =
        some ⟨"Unexpected payload received, got: '" ++ body ++ "', but none was expected"⟩ ∧
      checkPayload J (s.SetPayload (some "")) r =
        some ⟨if stringsHasPrefix (headerGet r.Header "Content-Type") "application/json" then
            "Invalid expected JSON: ''"
          else "Unexpected payload received, got: '" ++ body ++ "', expected: ''"⟩) := by
  have hbody : ∀ body, r.Body = .ok body → body ≠ "" →
      checkPayload J (s.SetPayload none) r =
        some ⟨"Unexpected payload received, got: '" ++ body ++ "', but none was expected"⟩ ∧
      checkPayload J (s.SetPayload (some "")) r =
        some ⟨if stringsHasPrefix (headerGet r.Header "Content-Type") "application/json" then
            "Invalid expected JSON: ''"
          else "Unexpected payload received, got: '" ++ body ++ "', expected: ''"⟩ := by
    intro body hb hne
    have hpos : body.length > 0 := (length_pos_iff_ne_empty body).2 hne
    have hnz : ¬ body.length = 0 := Nat.pos_iff_ne_zero.1 hpos
    constructor
    · unfold checkPayload
      rw [hb]
      simp [ServerMock.SetPayload, hpos]
    · unfold checkPayload
      rw [hb]
      simp only [ServerMock.SetPayload, bytesToString, hnz, and_false, if_false, false_and,
        reduceCtorEq]
      unfold comparePayloads isJSONrequest
      cases hct : stringsHasPrefix (headerGet r.Header "Content-Type") "application/json"
      · simp only [bytesToString, Bool.false_eq_true, not_false_eq_true, if_true, if_false,
          ne_eq, hne, String.append_empty]
        rw [String.append_assoc]
        rfl
      · simp [bytesToString, hJ]
  have hsame : r.Body = .ok "" ∨ (∃ err, r.Body = .error err) →
      checkPayload J (s.SetPayload (some "")) r = checkPayload J (s.SetPayload none) r := by
    intro h
    rcases h with h | ⟨err, h⟩
    · unfold checkPayload
      rw [h]
      simp [ServerMock.SetPayload, bytesToString, comparePayloads, isJSONrequest]
    · unfold checkPayload
      rw [h]
  refine ⟨?_, hsame, hbody⟩
  cases hb : r.Body with
  | error err => rw [hsame (Or.inr ⟨err, hb⟩)]
  | ok body =>
    by_cases hne : body = ""
    · subst hne
      rw [hsame (Or.inl hb)]
    · obtain ⟨h0, h1⟩ := hbody body hb hne
      rw [h0, h1]
      simp

/-- The two tests of a body against no expectation and against an empty one,
sent as JSON: both fail, each with its own message. -/
theorem checkPayload_empty_vs_absent_witness :
    checkPayload goJSON (ServerMock.SetPayload {} none)
        { Header := [("Content-Type", ["application/json"])], Body := .ok "1" } =
      some ⟨"Unexpected payload received, got: '1', but none was expected"⟩ ∧
    checkPayload goJSON (ServerMock.SetPayload {} (some ""))
        { Header := [("Content-Type", ["application/json"])], Body := .ok "1" } =
      some ⟨"Invalid expected JSON: ''"⟩ := by
  have h := (checkPayload_empty_vs_absent goJSON {}
    { Header := [("Content-Type", ["application/json"])], Body := .ok "1" } rfl).2.2
      "1" rfl (by decide)
  refine ⟨h.1, ?_⟩
  rw [h.2]
  decide

/-- C12: on a request whose `Content-Type` begins with `application/json`, with
a non-empty body and an expected payload (present; non-empty or not): when the expected payload is not
valid JSON the check fails with `Invalid expected JSON: '<expected_payload>'`
whatever the body; when it is valid and the body is not, the check fails with
`Invalid received JSON: '<body>'`; and in both cases the result is the same for
every equality on parsed trees, none being consulted. -/
theorem checkPayload_invalid_json (J : JSONCodec) (s : ServerMock) (r : Request)
    (expected body : String)
    (hexp : s.config.Payload = some expected)
    (hbody : r.Body = .ok body) (hnb : body ≠ "")
    (hct : stringsHasPrefix (headerGet r.Header "Content-Type") "application/json" = true) :
    (J.Unmarshal expected = none →
      ∀ eq, checkPayload { J with DeepEqual := eq } s r =
        some ⟨"Invalid expected JSON: '" ++ expected ++ "'"⟩) ∧
    (J.Unmarshal expected ≠ none → J.Unmarshal body = none →
      ∀ eq, checkPayload { J with DeepEqual := eq } s r =
        some ⟨"Invalid received JSON: '" ++ body ++ "'"⟩) := by
  have hb : body.length > 0 := (length_pos_iff_ne_empty body).2 hnb
  have hb0 : ¬ body.length = 0 := Nat.pos_iff_ne_zero.1 hb
  constructor
  · intro hinv eq
    unfold checkPayload
    rw [hbody]
    simp only [hexp, bytesToString, hb0, and_false, if_false, false_and, reduceCtorEq]
    unfold comparePayloads isJSONrequest
    simp only [hct, hexp, bytesToString, hinv, not_true_eq_false, if_false]
  · intro hval hinv eq
    unfold checkPayload
    rw [hbody]
    simp only [hexp, bytesToString, hb0, and_false, if_false, false_and, reduceCtorEq]
    unfold comparePayloads isJSONrequest
    simp only [hct, hexp, bytesToString, not_true_eq_false, if_false]
    cases he : J.Unmarshal expected with
    | none => exact absurd he hval
    | some e => simp only [hinv]

/-- The two tests of the repository: the expectation `{"key:"value}` against a
valid body, and a valid expectation against the body `{"key:"value}`. -/
theorem checkPayload_invalid_json_witness :
    checkPayload goJSON { config := { Payload := some invalidDoc } }
        { Method := "POST", Header := [("Content-Type", ["application/json"])],
          Body := .ok expectedDoc } =
      some ⟨"Invalid expected JSON: '" ++ invalidDoc ++ "'"⟩ ∧
    checkPayload goJSON { config := { Payload := some expectedDoc } }
        { Method := "POST", Header := [("Content-Type", ["application/json"])],
          Body := .ok invalidDoc } =
      some ⟨"Invalid received JSON: '" ++ invalidDoc ++ "'"⟩ :=
  ⟨(checkPayload_invalid_json goJSON { config := { Payload := some invalidDoc } }
      { Method := "POST", Header := [("Content-Type", ["application/json"])],
        Body := .ok expectedDoc } invalidDoc expectedDoc rfl rfl (by decide)
      (by decide)).1 rfl JSONValue.deepEqual,
   (checkPayload_invalid_json goJSON { config := { Payload := some expectedDoc } }
      { Method := "POST", Header := [("Content-Type", ["application/json"])],
        Body := .ok invalidDoc } expectedDoc invalidDoc rfl rfl (by decide)
      (by decide)).2
      (by
        have h : (goJSON.Unmarshal expectedDoc).isSome = true := by decide
        intro hn
        rw [hn] at h
        exact absurd h (by decide))
      rfl JSONValue.deepEqual⟩

/-! ## The response -/

/-- The three parts of what `returnResponse` writes. -/
theorem returnResponse_eq (s : ServerMock) :
    returnResponse s =
      (rangeOf s.config.ResponseHeader).map (fun kv => Effect.headerSet kv.1 kv.2) ++
      (if (100 ≤ s.config.ResponseStatus ∧ s.config.ResponseStatus ≤ 511) then
        [Effect.writeHeader s.config.ResponseStatus]
       else if s.config.ResponseStatus = 0 then [Effect.writeHeader 200] else []) ++
      (match s.config.ResponseBody with
       | some body => [Effect.write body]
       | none => []) := by
  unfold returnResponse
  have hh : (match s.config.ResponseHeader with
      | some m => m.map (fun kv => Effect.headerSet kv.1 kv.2)
      | none => []) =
      (rangeOf s.config.ResponseHeader).map (fun kv => Effect.headerSet kv.1 kv.2) := by
    cases s.config.ResponseHeader <;> simp [rangeOf]
  simp only [hh, ge_iff_le]
  congr 2
  by_cases h0 : s.config.ResponseStatus = 0
  · simp [h0]
  · simp only [h0, if_false]

/-- C13: `returnResponse` writes the status `ResponseStatus` when it lies in
100..511, the status 200 when it is 0, and no status for any other value. -/
theorem returnResponse_status (s : ServerMock) :
    (100 ≤ s.config.ResponseStatus ∧ s.config.ResponseStatus ≤ 511 →
      statusWrites (returnResponse s) = [Effect.writeHeader s.config.ResponseStatus]) ∧
    (s.config.ResponseStatus = 0 →
      statusWrites (returnResponse s) = [Effect.writeHeader 200]) ∧
    (s.config.ResponseStatus ≠ 0 →
      (s.config.ResponseStatus < 100 ∨ 511 < s.config.ResponseStatus) →
      statusWrites (returnResponse s) = []) := by
  have hhead : ∀ l : List (String × String),
      List.filter (fun e => match e with
        | Effect.writeHeader _ => true
        | _ => false) (l.map (fun kv => Effect.headerSet kv.1 kv.2)) = [] := by
    intro l
    rw [List.filter_eq_nil_iff]
    intro e he
    simp only [List.mem_map] at he
    obtain ⟨kv, _, rfl⟩ := he
    simp
  have hbody : List.filter (fun e => match e with
        | Effect.writeHeader _ => true
        | _ => false)
      (match s.config.ResponseBody with
       | some body => [Effect.write body]
       | none => []) = [] := by
    cases s.config.ResponseBody <;> simp
  rw [returnResponse_eq]
  unfold statusWrites
  simp only [List.filter_append, hhead, hbody, List.nil_append, List.append_nil]
  refine ⟨?_, ?_, ?_⟩
  · intro h
    rw [if_pos h]
    simp
  · intro h
    have hn : ¬ (100 ≤ s.config.ResponseStatus ∧ s.config.ResponseStatus ≤ 511) := by
      rw [h]
      omega
    rw [if_neg hn, if_pos h]
    simp
  · intro h0 hout
    have hn : ¬ (100 ≤ s.config.ResponseStatus ∧ s.config.ResponseStatus ≤ 511) := by
      omega
    rw [if_neg hn, if_neg h0]
    simp

/-- The statuses of the tests and of the edges of the range: 201 and 500 are
written, 0 gives 200, 100 and 511 are written, 99, 512 and -1 give no write. -/
theorem returnResponse_status_witness :
    statusWrites (returnResponse { config := { ResponseStatus := 201 } }) =
      [Effect.writeHeader 201] ∧
    statusWrites (returnResponse { config := { ResponseStatus := 0 } }) =
      [Effect.writeHeader 200] ∧
    statusWrites (returnResponse { config := { ResponseStatus := 512 } }) = [] ∧
    statusWrites (returnResponse { config := { ResponseStatus := 99 } }) = [] ∧
    statusWrites (returnResponse { config := { ResponseStatus := -1 } }) = [] ∧
    statusWrites (returnResponse { config := { ResponseStatus := 100 } }) =
      [Effect.writeHeader 100] ∧
    statusWrites (returnResponse { config := { ResponseStatus := 511 } }) =
      [Effect.writeHeader 511] :=
  ⟨(returnResponse_status { config := { ResponseStatus := 201 } }).1 (by decide),
   (returnResponse_status { config := { ResponseStatus := 0 } }).2.1 rfl,
   (returnResponse_status { config := { ResponseStatus := 512 } }).2.2 (by decide) (by decide),
   (returnResponse_status { config := { ResponseStatus := 99 } }).2.2 (by decide) (by decide),
   (returnResponse_status { config := { ResponseStatus := -1 } }).2.2 (by decide) (by decide),
   (returnResponse_status { config := { ResponseStatus := 100 } }).1 (by decide),
   (returnResponse_status { config := { ResponseStatus := 511 } }).1 (by decide)⟩

/-- C14: `returnResponse` first sets every entry of the configured response
headers, each once (none for a `nil` mapping), then makes the status write if
there is one, then writes the configured body, byte for byte, exactly when the
body is not `nil`; so no header is set after the status write. -/
theorem returnResponse_order (s : ServerMock) :
    ∃ status : List Effect,
      returnResponse s =
        (rangeOf s.config.ResponseHeader).map (fun kv => Effect.headerSet kv.1 kv.2) ++
        status ++
        (match s.config.ResponseBody with
         | some body => [Effect.write body]
         | none => []) ∧
      status = statusWrites (returnResponse s) ∧ status.length ≤ 1 := by
  have h := returnResponse_eq s
  refine ⟨_, h, ?_, ?_⟩
  · have hhead : ∀ l : List (String × String),
        statusWrites (l.map (fun kv => Effect.headerSet kv.1 kv.2)) = [] := by
      intro l
      unfold statusWrites
      rw [List.filter_eq_nil_iff]
      intro e he
      simp only [List.mem_map] at he
      obtain ⟨kv, _, rfl⟩ := he
      simp
    have hbody : statusWrites
        (match s.config.ResponseBody with
         | some body => [Effect.write body]
         | none => []) = [] := by
      unfold statusWrites
      cases s.config.ResponseBody <;> simp
    have happ : ∀ a b : List Effect, statusWrites (a ++ b) = statusWrites a ++ statusWrites b := by
      intro a b
      unfold statusWrites
      rw [List.filter_append]
    rw [h, happ, happ, hhead, hbody]
    unfold statusWrites
    split_ifs <;> simp
  · split_ifs <;> simp

/-- The response of `TestServerMock_ResponseStatusAndBody`: the header, then
the status 201, then the body; and a plan with an empty, non-nil body and no
headers writes the status 200 and then the empty body. -/
theorem returnResponse_order_witness :
    returnResponse responseMock =
      [Effect.headerSet "Custom-Header" "success", Effect.writeHeader 201, Effect.write "ok"] ∧
    returnResponse { config := { ResponseBody := some "" } } =
      [Effect.writeHeader 200, Effect.write ""] ∧
    returnResponse { config := { ResponseStatus := 700 } } = [] := by
  obtain ⟨st, h, hst, _⟩ := returnResponse_order responseMock
  refine ⟨?_, by decide, by decide⟩
  rw [h, hst]
  decide

/-- C15: whatever the request, and whether its checks pass or fail, the writes
of the handler to the response are those of `returnResponse`, which reads the
response plan only; so two requests to mocks with the same response plan get
the same header, status and body writes. -/
theorem newHandler_same_response (J1 J2 : JSONCodec) (s1 s2 : ServerMock) (r1 r2 : Request)
    (hh : s1.config.ResponseHeader = s2.config.ResponseHeader)
    (hs : s1.config.ResponseStatus = s2.config.ResponseStatus)
    (hb : s1.config.ResponseBody = s2.config.ResponseBody) :
    (newHandler J1 s1 r1).filter (fun e => ¬ e.isReport) = returnResponse s1 ∧
    (newHandler J1 s1 r1).filter (fun e => ¬ e.isReport) =
      (newHandler J2 s2 r2).filter (fun e => ¬ e.isReport) := by
  have hresp : ∀ (J : JSONCodec) (s : ServerMock) (r : Request),
      (newHandler J s r).filter (fun e => ¬ e.isReport) = returnResponse s := by
    intro J s r
    unfold newHandler
    rw [List.filter_append]
    have h1 : (handlerReport s (handlerErrors J s r)).filter (fun e => ¬ e.isReport) = [] := by
      rw [List.filter_eq_nil_iff]
      intro e he
      unfold handlerReport at he
      split_ifs at he
      · cases ht : s.config.T with
        | none =>
          simp only [ht, List.mem_singleton] at he
          subst he
          simp [Effect.isReport]
        | some t =>
          simp only [ht, List.mem_singleton] at he
          subst he
          simp [Effect.isReport]
      · simp at he
    have h2 : (returnResponse s).filter (fun e => ¬ e.isReport) = returnResponse s := by
      rw [List.filter_eq_self]
      intro e he
      have hnone := returnResponse_no_report s
      rw [List.filter_eq_nil_iff] at hnone
      simpa using hnone e he
    rw [h1, h2, List.nil_append]
  refine ⟨hresp J1 s1 r1, ?_⟩
  rw [hresp J1 s1 r1, hresp J2 s2 r2, returnResponse_eq, returnResponse_eq, hh, hs, hb]

/-- A request that passes every check and one that fails two of them get the
same response from the mock of `TestServerMock_ResponseStatusAndBody`. -/
theorem newHandler_same_response_witness :
    (newHandler goJSON responseMock { Method := "POST" }).filter (fun e => ¬ e.isReport) =
      (newHandler goJSON responseMock
        { Method := "GET", Body := .ok "x" }).filter (fun e => ¬ e.isReport) :=
  (newHandler_same_response goJSON goJSON responseMock responseMock { Method := "POST" }
    { Method := "GET", Body := .ok "x" } rfl rfl rfl).2

/-! ## The lifecycle -/

/-- C16: a `Start` on a mock with a live server handle returns the URL of that
handle, leaves the mock as it is and binds no server; so of two successive
`Start` calls the second returns the URL of the first and changes nothing,
whatever server a new bind would have given. -/
theorem Start_idempotent (s : ServerMock) (fresh fresh2 : Server) :
    (∀ srv, s.server = some srv → s.Start fresh = (s, srv.URL, [])) ∧
    (s.Start fresh).1.Start fresh2 = ((s.Start fresh).1, (s.Start fresh).2.1, []) ∧
    ((s.Start fresh).1.Start fresh2).2.1 = (s.Start fresh).2.1 := by
  have h1 : ∀ srv, s.server = some srv → s.Start fresh = (s, srv.URL, []) := by
    intro srv h
    unfold ServerMock.Start
    rw [h]
  have h2 : (s.Start fresh).1.Start fresh2 = ((s.Start fresh).1, (s.Start fresh).2.1, []) := by
    cases hs : s.server with
    | none => simp [ServerMock.Start, hs]
    | some srv => simp [ServerMock.Start, hs]
  exact ⟨h1, h2, by rw [h2]⟩

/-- The test `TestServerMock_StartAndStop`: the second `Start` returns the URL
of the first, although a new bind would have given another port. -/
theorem Start_idempotent_witness :
    (NewDefaultMockServer.Start ⟨"http://127.0.0.1:40001"⟩).2.1 = "http://127.0.0.1:40001" ∧
    ((NewDefaultMockServer.Start ⟨"http://127.0.0.1:40001"⟩).1.Start
      ⟨"http://127.0.0.1:40002"⟩).2.1 = "http://127.0.0.1:40001" :=
  ⟨by decide,
   (Start_idempotent NewDefaultMockServer ⟨"http://127.0.0.1:40001"⟩
      ⟨"http://127.0.0.1:40002"⟩).2.2.trans (by decide)⟩

theorem Start_live (s : ServerMock) (fresh : Server) :
    ((s.Start fresh).1.server).isSome = true := by
  cases hs : s.server with
  | none => simp [ServerMock.Start, hs]
  | some srv => simp [ServerMock.Start, hs]

theorem Stop_absent (s : ServerMock) : s.Stop.1.server = none := by
  cases hs : s.server with
  | none => simp [ServerMock.Stop, hs]
  | some srv => simp [ServerMock.Stop, hs]

theorem exec_append (env : Nat → Server) (calls : List Call) (c : Call) (st : Run) :
    Run.exec env (calls ++ [c]) st = Run.step env (Run.exec env calls st) c := by
  unfold Run.exec
  rw [List.foldl_append]
  rfl

/-- C17: after any sequence of `Start`, `Stop` and `Server` calls on a freshly
constructed mock, `Server()` returns a handle exactly when the sequence has a
`Start` or `Stop` call and the last of them is a `Start`.  `Server()` on the
fresh mock returns no handle, and a `Server` call changes nothing and binds
nothing.  After a `Stop` the handle is absent, and a second `Stop` leaves the
mock as it is. -/
theorem Server_live_iff (env : Nat → Server) (config : ServerMockConfig) (calls : List Call) :
    (((Run.exec env calls { mock := NewConfiguredMockServer config }).mock.Server).isSome ↔
      (calls.filter (fun c => c ≠ Call.Server)).getLast? = some Call.Start) ∧
    (NewConfiguredMockServer config).Server = none ∧
    NewDefaultMockServer.Server = none ∧
    (∀ st : Run, Run.step env st Call.Server = st) ∧
    (∀ s : ServerMock, s.Stop.1.Server = none ∧ s.Stop.1.Stop.1 = s.Stop.1) := by
  refine ⟨?_, rfl, rfl, fun _ => rfl, ?_⟩
  · induction calls using List.reverseRecOn with
    | nil => simp [Run.exec, NewConfiguredMockServer, ServerMock.Server]
    | append_singleton cs c ih =>
      rw [exec_append, List.filter_append]
      cases c with
      | Start =>
        have hlive : ((Run.step env
            (Run.exec env cs { mock := NewConfiguredMockServer config }) Call.Start).mock.Server).isSome
            = true := by
          simp only [Run.step, ServerMock.Server]
          exact Start_live _ _
        simp [hlive]
      | Stop =>
        have hdead : ((Run.step env
            (Run.exec env cs { mock := NewConfiguredMockServer config }) Call.Stop).mock.Server)
            = none := by
          simp only [Run.step, ServerMock.Server]
          exact Stop_absent _
        simp [hdead]
      | Server =>
        simpa [Run.step] using ih
  · intro s
    cases hs : s.server with
    | none => simp [ServerMock.Stop, ServerMock.Server, hs]
    | some srv => simp [ServerMock.Stop, ServerMock.Server, hs]

/-- The calls of `TestServerMock_Stop` and `TestServerMock_Server`: after
`Start, Stop, Stop` no handle; after `Server, Start, Server` a handle. -/
theorem Server_live_iff_witness :
    ((Run.exec (fun n => ⟨"http://127.0.0.1:" ++ toString (40000 + n)⟩)
        [Call.Start, Call.Stop, Call.Stop] { mock := NewConfiguredMockServer {} }).mock.Server)
      = none ∧
    ((Run.exec (fun n => ⟨"http://127.0.0.1:" ++ toString (40000 + n)⟩)
        [Call.Server, Call.Start, Call.Server]
        { mock := NewConfiguredMockServer {} }).mock.Server).isSome = true :=
  ⟨by decide,
   (Server_live_iff (fun n => ⟨"http://127.0.0.1:" ++ toString (40000 + n)⟩) {}
      [Call.Server, Call.Start, Call.Server]).1.2 (by decide)⟩

/-! ## The fluent mutators -/

theorem applyChain_append (ms : List Mutator) (m : Mutator) (s : ServerMock) :
    applyChain (ms ++ [m]) s = Mutator.apply (applyChain ms s) m := by
  unfold applyChain
  rw [List.foldl_append]
  rfl

theorem lastWrite_append {α : Type} (arg : Mutator → Option α) (ms : List Mutator)
    (m : Mutator) (init : α) :
    lastWrite arg (ms ++ [m]) init =
      match arg m with
      | some v => v
      | none => lastWrite arg ms init := by
  unfold lastWrite
  rw [List.filterMap_append]
  cases h : arg m with
  | none => simp [List.filterMap, h]
  | some v => simp [List.filterMap, h]

/-- C18: each of the seven mutators returns the mock with its own field set to
the argument and every other field, and the server handle, as it was (the
mock returned is the mock the call was made on, after the write).  After a
chain of mutator calls each of the seven fields holds the argument of the last
call for it, or its value before the chain when the chain has no call for it;
the fields without a mutator and the server handle keep their value. -/
theorem mutators_last_write_wins (s : ServerMock) (ms : List Mutator) :
    ((∀ v, (s.SetMethod v).config.Method = v ∧ (s.SetMethod v).config.Path = s.config.Path ∧
        (s.SetMethod v).config.ContentType = s.config.ContentType ∧
        (s.SetMethod v).config.Payload = s.config.Payload ∧
        (s.SetMethod v).config.Parameters = s.config.Parameters ∧
        (s.SetMethod v).config.Headers = s.config.Headers ∧
        (s.SetMethod v).config.ResponseStatus = s.config.ResponseStatus ∧
        (s.SetMethod v).config.ResponseHeader = s.config.ResponseHeader ∧
        (s.SetMethod v).config.ResponseBody = s.config.ResponseBody ∧
        (s.SetMethod v).config.T = s.config.T ∧ (s.SetMethod v).server = s.server) ∧
     (∀ v, (s.SetPath v).config.Path = v ∧ (s.SetPath v).config.Method = s.config.Method ∧
        (s.SetPath v).config.ContentType = s.config.ContentType ∧
        (s.SetPath v).config.Payload = s.config.Payload ∧
        (s.SetPath v).config.Parameters = s.config.Parameters ∧
        (s.SetPath v).config.Headers = s.config.Headers ∧
        (s.SetPath v).config.ResponseStatus = s.config.ResponseStatus ∧
        (s.SetPath v).config.ResponseHeader = s.config.ResponseHeader ∧
        (s.SetPath v).config.ResponseBody = s.config.ResponseBody ∧
        (s.SetPath v).config.T = s.config.T ∧ (s.SetPath v).server = s.server) ∧
     (∀ v, (s.SetT v).config.T = v ∧ (s.SetT v).config.Path = s.config.Path ∧
        (s.SetT v).config.Method = s.config.Method ∧
        (s.SetT v).config.ContentType = s.config.ContentType ∧
        (s.SetT v).config.Payload = s.config.Payload ∧
        (s.SetT v).config.Parameters = s.config.Parameters ∧
        (s.SetT v).config.Headers = s.config.Headers ∧
        (s.SetT v).config.ResponseStatus = s.config.ResponseStatus ∧
        (s.SetT v).config.ResponseHeader = s.config.ResponseHeader ∧
        (s.SetT v).config.ResponseBody = s.config.ResponseBody ∧
        (s.SetT v).server = s.server) ∧
     (∀ v, (s.SetPayload v).config.Payload = v ∧
        (s.SetPayload v).config.Path = s.config.Path ∧
        (s.SetPayload v).config.Method = s.config.Method ∧
        (s.SetPayload v).config.ContentType = s.config.ContentType ∧
        (s.SetPayload v).config.Parameters = s.config.Parameters ∧
        (s.SetPayload v).config.Headers = s.config.Headers ∧
        (s.SetPayload v).config.ResponseStatus = s.config.ResponseStatus ∧
        (s.SetPayload v).config.ResponseHeader = s.config.ResponseHeader ∧
        (s.SetPayload v).config.ResponseBody = s.config.ResponseBody ∧
        (s.SetPayload v).config.T = s.config.T ∧ (s.SetPayload v).server = s.server) ∧
     (∀ v, (s.SetResponseStatus v).config.ResponseStatus = v ∧
        (s.SetResponseStatus v).config.Path = s.config.Path ∧
        (s.SetResponseStatus v).config.Method = s.config.Method ∧
        (s.SetResponseStatus v).config.ContentType = s.config.ContentType ∧
        (s.SetResponseStatus v).config.Payload = s.config.Payload ∧
        (s.SetResponseStatus v).config.Parameters = s.config.Parameters ∧
        (s.SetResponseStatus v).config.Headers = s.config.Headers ∧
        (s.SetResponseStatus v).config.ResponseHeader = s.config.ResponseHeader ∧
        (s.SetResponseStatus v).config.ResponseBody = s.config.ResponseBody ∧
        (s.SetResponseStatus v).config.T = s.config.T ∧
        (s.SetResponseStatus v).server = s.server) ∧
     (∀ v, (s.SetResponseHeader v).config.ResponseHeader = v ∧
        (s.SetResponseHeader v).config.Path = s.config.Path ∧
        (s.SetResponseHeader v).config.Method = s.config.Method ∧
        (s.SetResponseHeader v).config.ContentType = s.config.ContentType ∧
        (s.SetResponseHeader v).config.Payload = s.config.Payload ∧
        (s.SetResponseHeader v).config.Parameters = s.config.Parameters ∧
        (s.SetResponseHeader v).config.Headers = s.config.Headers ∧
        (s.SetResponseHeader v).config.ResponseStatus = s.config.ResponseStatus ∧
        (s.SetResponseHeader v).config.ResponseBody = s.config.ResponseBody ∧
        (s.SetResponseHeader v).config.T = s.config.T ∧
        (s.SetResponseHeader v).server = s.server) ∧
     (∀ v, (s.SetResponseBody v).config.ResponseBody = v ∧
        (s.SetResponseBody v).config.Path = s.config.Path ∧
        (s.SetResponseBody v).config.Method = s.config.Method ∧
        (s.SetResponseBody v).config.ContentType = s.config.ContentType ∧
        (s.SetResponseBody v).config.Payload = s.config.Payload ∧
        (s.SetResponseBody v).config.Parameters = s.config.Parameters ∧
        (s.SetResponseBody v).config.Headers = s.config.Headers ∧
        (s.SetResponseBody v).config.ResponseStatus = s.config.ResponseStatus ∧
        (s.SetResponseBody v).config.ResponseHeader = s.config.ResponseHeader ∧
        (s.SetResponseBody v).config.T = s.config.T ∧
        (s.SetResponseBody v).server = s.server)) ∧
    ((applyChain ms s).config.Method = lastWrite Mutator.method ms s.config.Method ∧
     (applyChain ms s).config.Path = lastWrite Mutator.path ms s.config.Path ∧
     (applyChain ms s).config.T = lastWrite Mutator.reporter ms s.config.T ∧
     (applyChain ms s).config.Payload = lastWrite Mutator.payload ms s.config.Payload ∧
     (applyChain ms s).config.ResponseStatus =
        lastWrite Mutator.responseStatus ms s.config.ResponseStatus ∧
     (applyChain ms s).config.ResponseHeader =
        lastWrite Mutator.responseHeader ms s.config.ResponseHeader ∧
     (applyChain ms s).config.ResponseBody =
        lastWrite Mutator.responseBody ms s.config.ResponseBody ∧
     (applyChain ms s).config.ContentType = s.config.ContentType ∧
     (applyChain ms s).config.Parameters = s.config.Parameters ∧
     (applyChain ms s).config.Headers = s.config.Headers ∧
     (applyChain ms s).server = s.server) := by
  constructor
  · refine ⟨?_, ?_, ?_, ?_, ?_, ?_, ?_⟩ <;> intro v <;>
      refine ⟨rfl, rfl, rfl, rfl, rfl, rfl, rfl, rfl, rfl, rfl, rfl⟩
  · induction ms using List.reverseRecOn with
    | nil => simp [applyChain, lastWrite]
    | append_singleton ms m ih =>
      obtain ⟨h1, h2, h3, h4, h5, h6, h7, h8, h9, h10, h11⟩ := ih
      rw [applyChain_append]
      simp only [lastWrite_append]
      cases m <;>
        simp [Mutator.apply, ServerMock.SetMethod, ServerMock.SetPath, ServerMock.SetT,
          ServerMock.SetPayload, ServerMock.SetResponseStatus, ServerMock.SetResponseHeader,
          ServerMock.SetResponseBody, Mutator.method, Mutator.path, Mutator.reporter,
          Mutator.payload, Mutator.responseStatus, Mutator.responseHeader,
          Mutator.responseBody, h1, h2, h3, h4, h5, h6, h7, h8, h9, h10, h11]

/-- The chain of `TestServerMock_BuilderMethods` with a second `SetMethod`: the
method is the one of the last call, the path the one set, the payload the one
the mock was constructed with. -/
theorem mutators_last_write_wins_witness :
    (applyChain [Mutator.SetMethod "POST", Mutator.SetPath "/test",
        Mutator.SetResponseStatus 202, Mutator.SetMethod "PUT"]
        (NewConfiguredMockServer { Payload := some "p" })).config.Method = "PUT" ∧
    (applyChain [Mutator.SetMethod "POST", Mutator.SetPath "/test",
        Mutator.SetResponseStatus 202, Mutator.SetMethod "PUT"]
        (NewConfiguredMockServer { Payload := some "p" })).config.Path = "/test" ∧
    (applyChain [Mutator.SetMethod "POST", Mutator.SetPath "/test",
        Mutator.SetResponseStatus 202, Mutator.SetMethod "PUT"]
        (NewConfiguredMockServer { Payload := some "p" })).config.Payload = some "p" := by
  have h := (mutators_last_write_wins (NewConfiguredMockServer { Payload := some "p" })
    [Mutator.SetMethod "POST", Mutator.SetPath "/test",
      Mutator.SetResponseStatus 202, Mutator.SetMethod "PUT"]).2
  refine ⟨h.1.trans (by decide), h.2.1.trans (by decide), h.2.2.2.1.trans (by decide)⟩

/-! ## What a started mock serves -/

/-- C19: the code at the failing input.  The server that `Start` binds runs
the handler of the checks, whatever the mock: every request to a started mock
gets the report of the failing checks and then the configured response.  The
mock of `TestServerMock_CustomMock`, started, answers `POST /` with the status
200 and no body, not with the status 201 and the body `mock-message` that the
test expects of its custom handler; and a mock whose contract the request
breaks reports it and writes its configured response. -/
theorem Start_serves_newHandler :
    (∀ (J : JSONCodec) (s : ServerMock) (fresh : Server) (r : Request),
      (s.Start fresh).1.serve J r =
        some (handlerReport (s.Start fresh).1 (handlerErrors J (s.Start fresh).1 r) ++
          returnResponse (s.Start fresh).1)) ∧
    ((NewConfiguredMockServer {}).Start ⟨"http://127.0.0.1:40001"⟩).1.serve goJSON
        { Method := "POST" } = some [Effect.writeHeader 200] ∧
    ((NewConfiguredMockServer {}).Start ⟨"http://127.0.0.1:40001"⟩).1.serve goJSON
        { Method := "POST" } ≠ some customMockWrites ∧
    (responseMock.Start ⟨"http://127.0.0.1:40001"⟩).1.serve goJSON { Method := "GET" } =
      some [Effect.errorf testReporter "GoAPIpretender: invalid method, got: 'GET' expected: 'POST'",
            Effect.headerSet "Custom-Header" "success", Effect.writeHeader 201,
            Effect.write "ok"] := by
  refine ⟨?_, by decide, by decide, by decide⟩
  intro J s fresh r
  have hlive := Start_live s fresh
  unfold ServerMock.serve
  cases hs : (s.Start fresh).1.server with
  | none => simp [hs] at hlive
  | some srv => rfl

/-! ## Request introspection -/

theorem set_of_not_mem {β : Type} (m : GoMap β) (k : String) (v : β)
    (h : k ∉ m.map Prod.fst) : GoMap.set m k v = m ++ [(k, v)] := by
  induction m with
  | nil => rfl
  | cons e rest ih =>
    obtain ⟨k0, v0⟩ := e
    simp only [List.map_cons, List.mem_cons, not_or] at h
    have h0 : ¬ k0 = k := fun hc => h.1 hc.symm
    simp [GoMap.set, h0, ih h.2]

/-- The loop of `getHeaders` and `getParameters` over a map (distinct keys, none
of them in the accumulator) appends one entry for each key, in the order of the
iteration. -/
theorem foldl_set_join (l : GoMap (List String)) (acc : GoMap String)
    (hnd : (l.map Prod.fst).Nodup) (hdis : ∀ k ∈ l.map Prod.fst, k ∉ acc.map Prod.fst) :
    l.foldl (fun m kv => GoMap.set m kv.1 (stringsJoin kv.2 ", ")) acc =
      acc ++ l.map (fun kv => (kv.1, stringsJoin kv.2 ", ")) := by
  induction l generalizing acc with
  | nil => simp
  | cons e rest ih =>
    obtain ⟨k0, v0⟩ := e
    simp only [List.map_cons, List.nodup_cons] at hnd
    have hk0 : k0 ∉ acc.map Prod.fst := hdis k0 (by simp)
    rw [List.foldl_cons, set_of_not_mem acc k0 _ hk0, ih _ hnd.2]
    · simp
    · intro k hk
      simp only [List.map_append, List.map_cons, List.map_nil, List.mem_append,
        List.mem_singleton, not_or]
      refine ⟨hdis k (by simp [hk]), ?_⟩
      intro hc
      subst hc
      exact hnd.1 hk

theorem stringsJoin_pair (a b : String) : stringsJoin [a, b] ", " = a ++ ", " ++ b := by
  simp [stringsJoin, String.intercalate, String.intercalate.go]

/-- C20: for a request whose header map and parsed query are maps (distinct
keys), `getHeaders` and `getParameters` return the mapping with the same keys,
each key mapped to the `, `-join of its values in their order; the join of the
single value `v` is `v`, the join of `a` then `b` is `a, b`; and an expectation
on a header or parameter sent with the values `a` then `b` is met by the
required value `a, b` and by no other. -/
theorem getHeaders_getParameters_joined (r : Request)
    (hH : (r.Header.map Prod.fst).Nodup) (hQ : (r.URL.Query.map Prod.fst).Nodup) :
    getHeaders r = r.Header.map (fun kv => (kv.1, stringsJoin kv.2 ", ")) ∧
    getParameters r = r.URL.Query.map (fun kv => (kv.1, stringsJoin kv.2 ", ")) ∧
    (∀ v, stringsJoin [v] ", " = v) ∧
    (∀ a b, stringsJoin [a, b] ", " = a ++ ", " ++ b) ∧
    (∀ (s : ServerMock) (key a b required : String),
      List.lookup key r.Header = some [a, b] →
      (checkValues s (getHeaders r) header (some [(key, required)]) = none ↔
        required = a ++ ", " ++ b)) ∧
    (∀ (s : ServerMock) (key a b required : String),
      List.lookup key r.URL.Query = some [a, b] →
      (checkValues s (getParameters r) parameter (some [(key, required)]) = none ↔
        required = a ++ ", " ++ b)) := by
  have hone : ∀ (s : ServerMock) (values : GoMap String) (param key required : String),
      checkValues s values param (some [(key, required)]) = none ↔
        values.index key = required := by
    intro s values param key required
    rw [checkValues_eq]
    have hm := mismatching_eq_nil_iff values (some [(key, required)])
    by_cases hb : mismatching values (some [(key, required)]) = []
    · simp only [hb, if_true, true_iff]
      exact hm.1 hb key required (by simp [rangeOf])
    · simp only [hb, if_false, reduceCtorEq, false_iff]
      intro hc
      apply hb
      rw [hm]
      intro k v hmem
      simp only [rangeOf, List.mem_singleton, Prod.mk.injEq] at hmem
      obtain ⟨rfl, rfl⟩ := hmem
      exact hc
  refine ⟨?_, ?_, ?_, stringsJoin_pair, ?_, ?_⟩
  · unfold getHeaders
    rw [foldl_set_join r.Header [] hH (by simp)]
    simp
  · unfold getParameters
    rw [foldl_set_join r.URL.Query [] hQ (by simp)]
    simp
  · intro v
    simp [stringsJoin, String.intercalate, String.intercalate.go]
  · intro s key a b required hl
    rw [hone, index_getHeaders r key hH]
    simp only [joinedValue, hl, stringsJoin_pair]
    exact eq_comm
  · intro s key a b required hl
    rw [hone, index_getParameters r key hQ]
    simp only [joinedValue, hl, stringsJoin_pair]
    exact eq_comm

/-- A request with `Accept` sent twice and `id` sent once: the two values are
joined, and the header expectation `text/html, */*` is met. -/
theorem getHeaders_getParameters_joined_witness :
    getHeaders { Header := [("Accept", ["text/html", "*/*"]), ("X-One", ["v"])],
                 URL := { Query := [("id", ["42"])] } } =
      [("Accept", "text/html, */*"), ("X-One", "v")] ∧
    getParameters { Header := [("Accept", ["text/html", "*/*"]), ("X-One", ["v"])],
                    URL := { Query := [("id", ["42"])] } } = [("id", "42")] ∧
    checkValues {} (getHeaders { Header := [("Accept", ["text/html", "*/*"]), ("X-One", ["v"])],
                                 URL := { Query := [("id", ["42"])] } }) header
      (some [("Accept", "text/html, */*")]) = none := by
  have h := getHeaders_getParameters_joined
    { Header := [("Accept", ["text/html", "*/*"]), ("X-One", ["v"])],
      URL := { Query := [("id", ["42"])] } } (by decide) (by decide)
  refine ⟨h.1.trans (by decide), h.2.1.trans (by decide), ?_⟩
  exact (h.2.2.2.2.1 {} "Accept" "text/html" "*/*" "text/html, */*" (by decide)).2 (by decide)

/-! ## The configuration field `ContentType` -/

/-- C21: two mocks whose configurations differ in the field `ContentType` only
do the same with every request: the handler performs the same reports and the
same response writes, each of the five checks returns the same result, and the
payload comparison is the JSON one exactly when the `Content-Type` header of
the request begins with `application/json`, whatever the configurations say. -/
theorem ContentType_no_effect (J : JSONCodec) (s1 s2 : ServerMock) (r : Request)
    (hdiff : s2.config = { s1.config with ContentType := s2.config.ContentType }) :
    newHandler J s1 r = newHandler J s2 r ∧
    fiveChecks J s1 r = fiveChecks J s2 r ∧
    (∀ payload, comparePayloads J s1 r payload = comparePayloads J s2 r payload) ∧
    isJSONrequest s1 r =
      stringsHasPrefix (headerGet r.Header "Content-Type") "application/json" ∧
    isJSONrequest s2 r =
      stringsHasPrefix (headerGet r.Header "Content-Type") "application/json" := by
  have hMethod : s2.config.Method = s1.config.Method := by rw [hdiff]
  have hPath : s2.config.Path = s1.config.Path := by rw [hdiff]
  have hPayload : s2.config.Payload = s1.config.Payload := by rw [hdiff]
  have hParameters : s2.config.Parameters = s1.config.Parameters := by rw [hdiff]
  have hHeaders : s2.config.Headers = s1.config.Headers := by rw [hdiff]
  have hStatus : s2.config.ResponseStatus = s1.config.ResponseStatus := by rw [hdiff]
  have hRespHeader : s2.config.ResponseHeader = s1.config.ResponseHeader := by rw [hdiff]
  have hRespBody : s2.config.ResponseBody = s1.config.ResponseBody := by rw [hdiff]
  have hT : s2.config.T = s1.config.T := by rw [hdiff]
  have hcompare : ∀ payload, comparePayloads J s1 r payload = comparePayloads J s2 r payload := by
    intro payload
    unfold comparePayloads isJSONrequest
    rw [hPayload]
  have hchecks : fiveChecks J s1 r = fiveChecks J s2 r := by
    unfold fiveChecks checkMethod checkPath checkValues checkPayload
    simp only [hMethod, hPath, hPayload, hParameters, hHeaders, hcompare]
  have herrs : handlerErrors J s1 r = handlerErrors J s2 r := by
    rw [handlerErrors_eq, handlerErrors_eq, hchecks]
  refine ⟨?_, hchecks, hcompare, rfl, rfl⟩
  unfold newHandler handlerReport returnResponse
  rw [herrs, hT, hStatus, hRespHeader, hRespBody]

/-- The payload mock configured with `ContentType: application/json` and the
one configured with `text/plain` give the same answer to a request without a
`Content-Type` header: the byte comparison, which rejects the reordered
document. -/
theorem ContentType_no_effect_witness :
    newHandler goJSON (contentTypeMock "application/json") plainPost =
      newHandler goJSON (contentTypeMock "text/plain") plainPost ∧
    isJSONrequest (contentTypeMock "application/json") plainPost = false ∧
    checkPayload goJSON (contentTypeMock "application/json") plainPost =
      some ⟨"Unexpected payload received, got: '" ++ reorderedBody ++ "', expected: '"
        ++ expectedDoc ++ "'"⟩ :=
  ⟨(ContentType_no_effect goJSON (contentTypeMock "application/json")
      (contentTypeMock "text/plain") plainPost rfl).1,
   by decide, by decide⟩

end GoAPIpretender
